import Mathlib

/-!
Shallow embedding of the FCL collision dispatch kernel:
`include/fcl/collision_func_matrix.h`, `include/fcl/BVH/BV_fitter.h`, and
`include/fcl/traversal/octree/collision/shape_octree_collision_traversal_node.h`.

The dispatch matrix is transcribed symbolically: each cell of
`CollisionFunctionMatrix::collision_matrix` is represented by a tag naming the
function template instantiated there (or `NULL` for the empty sentinel), with
one match arm per assignment line of the constructor.  The collision wrapper
functions themselves are embedded as state-passing Lean functions over an
abstract "external world" record of oracles standing for the code that lives
outside these headers (the recursive traversal `collide(&node)`, the
request-satisfaction predicate, `constructBox`, the narrow-phase solver).
The build is modelled with `FCL_HAVE_OCTOMAP` enabled, so the octree rows of
the matrix are present.
-/

namespace fcl

/-- Geometry node tags used by the dispatch matrix (`NODE_TYPE` in
`collision_object.h`; the tag set is the one used by the assignments in
`CollisionFunctionMatrix`'s constructor). -/
inductive NodeType
  | GEOM_BOX | GEOM_SPHERE | GEOM_ELLIPSOID | GEOM_CAPSULE | GEOM_CONE
  | GEOM_CYLINDER | GEOM_CONVEX | GEOM_PLANE | GEOM_HALFSPACE | GEOM_OCTREE
  | BV_AABB | BV_OBB | BV_RSS | BV_KDOP16 | BV_KDOP18 | BV_KDOP24
  | BV_kIOS | BV_OBBRSS
deriving DecidableEq, Repr, Fintype

/-- The primitive shape types that appear as template arguments of
`ShapeShapeCollide` and friends. -/
inductive ShapeT
  | Box | Sphere | Ellipsoid | Capsule | Cone | Cylinder | Convex
  | Plane | Halfspace
deriving DecidableEq, Repr, Fintype

/-- The bounding-volume types that appear as template arguments of the mesh
colliders. -/
inductive BVT
  | AABB | OBB | RSS | KDOP16 | KDOP18 | KDOP24 | kIOS | OBBRSS
deriving DecidableEq, Repr, Fintype

/-- The node tag a mesh organised under a given BV type carries. -/
def nodeOfBV : BVT → NodeType
  | .AABB => .BV_AABB
  | .OBB => .BV_OBB
  | .RSS => .BV_RSS
  | .KDOP16 => .BV_KDOP16
  | .KDOP18 => .BV_KDOP18
  | .KDOP24 => .BV_KDOP24
  | .kIOS => .BV_kIOS
  | .OBBRSS => .BV_OBBRSS

/-- The node tag a primitive shape carries. -/
def nodeOfShape : ShapeT → NodeType
  | .Box => .GEOM_BOX
  | .Sphere => .GEOM_SPHERE
  | .Ellipsoid => .GEOM_ELLIPSOID
  | .Capsule => .GEOM_CAPSULE
  | .Cone => .GEOM_CONE
  | .Cylinder => .GEOM_CYLINDER
  | .Convex => .GEOM_CONVEX
  | .Plane => .GEOM_PLANE
  | .Halfspace => .GEOM_HALFSPACE

/-- Symbolic content of one cell of `collision_matrix`: which function template
(with which template arguments) the constructor stores there.  `NULL` is the
empty sentinel every cell is initialised to before the assignments. -/
inductive CollisionFunc
  | NULL
  | ShapeShapeCollide (s1 s2 : ShapeT)
  | BVHShapeColliderCollide (bv : BVT) (s : ShapeT)
  | BVHCollide (bv : BVT)
  | OcTreeShapeCollide (s : ShapeT)
  | ShapeOcTreeCollide (s : ShapeT)
  | OcTreeCollide
  | OcTreeBVHCollide (bv : BVT)
  | BVHOcTreeCollide (bv : BVT)
deriving DecidableEq, Repr

/-- Transcription of `CollisionFunctionMatrix<NarrowPhaseSolver>::
CollisionFunctionMatrix()` (collision_func_matrix.h, lines 670-900): the loop
first sets every cell to `NULL`, then each assignment line overwrites one cell.
Here each populated cell is one match arm and the final arm is the `NULL`
initialisation.  `FCL_HAVE_OCTOMAP` is taken as defined, so the octree
assignments (lines 859-899) are included. -/
def collision_matrix : NodeType → NodeType → CollisionFunc
  | .GEOM_BOX, .GEOM_BOX => .ShapeShapeCollide .Box .Box
  | .GEOM_BOX, .GEOM_SPHERE => .ShapeShapeCollide .Box .Sphere
  | .GEOM_BOX, .GEOM_ELLIPSOID => .ShapeShapeCollide .Box .Ellipsoid
  | .GEOM_BOX, .GEOM_CAPSULE => .ShapeShapeCollide .Box .Capsule
  | .GEOM_BOX, .GEOM_CONE => .ShapeShapeCollide .Box .Cone
  | .GEOM_BOX, .GEOM_CYLINDER => .ShapeShapeCollide .Box .Cylinder
  | .GEOM_BOX, .GEOM_CONVEX => .ShapeShapeCollide .Box .Convex
  | .GEOM_BOX, .GEOM_PLANE => .ShapeShapeCollide .Box .Plane
  | .GEOM_BOX, .GEOM_HALFSPACE => .ShapeShapeCollide .Box .Halfspace
  | .GEOM_SPHERE, .GEOM_BOX => .ShapeShapeCollide .Sphere .Box
  | .GEOM_SPHERE, .GEOM_SPHERE => .ShapeShapeCollide .Sphere .Sphere
  | .GEOM_SPHERE, .GEOM_ELLIPSOID => .ShapeShapeCollide .Sphere .Ellipsoid
  | .GEOM_SPHERE, .GEOM_CAPSULE => .ShapeShapeCollide .Sphere .Capsule
  | .GEOM_SPHERE, .GEOM_CONE => .ShapeShapeCollide .Sphere .Cone
  | .GEOM_SPHERE, .GEOM_CYLINDER => .ShapeShapeCollide .Sphere .Cylinder
  | .GEOM_SPHERE, .GEOM_CONVEX => .ShapeShapeCollide .Sphere .Convex
  | .GEOM_SPHERE, .GEOM_PLANE => .ShapeShapeCollide .Sphere .Plane
  | .GEOM_SPHERE, .GEOM_HALFSPACE => .ShapeShapeCollide .Sphere .Halfspace
  | .GEOM_ELLIPSOID, .GEOM_BOX => .ShapeShapeCollide .Ellipsoid .Box
  | .GEOM_ELLIPSOID, .GEOM_SPHERE => .ShapeShapeCollide .Ellipsoid .Sphere
  | .GEOM_ELLIPSOID, .GEOM_ELLIPSOID => .ShapeShapeCollide .Ellipsoid .Ellipsoid
  | .GEOM_ELLIPSOID, .GEOM_CAPSULE => .ShapeShapeCollide .Ellipsoid .Capsule
  | .GEOM_ELLIPSOID, .GEOM_CONE => .ShapeShapeCollide .Ellipsoid .Cone
  | .GEOM_ELLIPSOID, .GEOM_CYLINDER => .ShapeShapeCollide .Ellipsoid .Cylinder
  | .GEOM_ELLIPSOID, .GEOM_CONVEX => .ShapeShapeCollide .Ellipsoid .Convex
  | .GEOM_ELLIPSOID, .GEOM_PLANE => .ShapeShapeCollide .Ellipsoid .Plane
  | .GEOM_ELLIPSOID, .GEOM_HALFSPACE => .ShapeShapeCollide .Ellipsoid .Halfspace
  | .GEOM_CAPSULE, .GEOM_BOX => .ShapeShapeCollide .Capsule .Box
  | .GEOM_CAPSULE, .GEOM_SPHERE => .ShapeShapeCollide .Capsule .Sphere
  | .GEOM_CAPSULE, .GEOM_ELLIPSOID => .ShapeShapeCollide .Capsule .Ellipsoid
  | .GEOM_CAPSULE, .GEOM_CAPSULE => .ShapeShapeCollide .Capsule .Capsule
  | .GEOM_CAPSULE, .GEOM_CONE => .ShapeShapeCollide .Capsule .Cone
  | .GEOM_CAPSULE, .GEOM_CYLINDER => .ShapeShapeCollide .Capsule .Cylinder
  | .GEOM_CAPSULE, .GEOM_CONVEX => .ShapeShapeCollide .Capsule .Convex
  | .GEOM_CAPSULE, .GEOM_PLANE => .ShapeShapeCollide .Capsule .Plane
  | .GEOM_CAPSULE, .GEOM_HALFSPACE => .ShapeShapeCollide .Capsule .Halfspace
  | .GEOM_CONE, .GEOM_BOX => .ShapeShapeCollide .Cone .Box
  | .GEOM_CONE, .GEOM_SPHERE => .ShapeShapeCollide .Cone .Sphere
  | .GEOM_CONE, .GEOM_ELLIPSOID => .ShapeShapeCollide .Cone .Ellipsoid
  | .GEOM_CONE, .GEOM_CAPSULE => .ShapeShapeCollide .Cone .Capsule
  | .GEOM_CONE, .GEOM_CONE => .ShapeShapeCollide .Cone .Cone
  | .GEOM_CONE, .GEOM_CYLINDER => .ShapeShapeCollide .Cone .Cylinder
  | .GEOM_CONE, .GEOM_CONVEX => .ShapeShapeCollide .Cone .Convex
  | .GEOM_CONE, .GEOM_PLANE => .ShapeShapeCollide .Cone .Plane
  | .GEOM_CONE, .GEOM_HALFSPACE => .ShapeShapeCollide .Cone .Halfspace
  | .GEOM_CYLINDER, .GEOM_BOX => .ShapeShapeCollide .Cylinder .Box
  | .GEOM_CYLINDER, .GEOM_SPHERE => .ShapeShapeCollide .Cylinder .Sphere
  | .GEOM_CYLINDER, .GEOM_ELLIPSOID => .ShapeShapeCollide .Cylinder .Ellipsoid
  | .GEOM_CYLINDER, .GEOM_CAPSULE => .ShapeShapeCollide .Cylinder .Capsule
  | .GEOM_CYLINDER, .GEOM_CONE => .ShapeShapeCollide .Cylinder .Cone
  | .GEOM_CYLINDER, .GEOM_CYLINDER => .ShapeShapeCollide .Cylinder .Cylinder
  | .GEOM_CYLINDER, .GEOM_CONVEX => .ShapeShapeCollide .Cylinder .Convex
  | .GEOM_CYLINDER, .GEOM_PLANE => .ShapeShapeCollide .Cylinder .Plane
  | .GEOM_CYLINDER, .GEOM_HALFSPACE => .ShapeShapeCollide .Cylinder .Halfspace
  | .GEOM_CONVEX, .GEOM_BOX => .ShapeShapeCollide .Convex .Box
  | .GEOM_CONVEX, .GEOM_SPHERE => .ShapeShapeCollide .Convex .Sphere
  | .GEOM_CONVEX, .GEOM_ELLIPSOID => .ShapeShapeCollide .Convex .Ellipsoid
  | .GEOM_CONVEX, .GEOM_CAPSULE => .ShapeShapeCollide .Convex .Capsule
  | .GEOM_CONVEX, .GEOM_CONE => .ShapeShapeCollide .Convex .Cone
  | .GEOM_CONVEX, .GEOM_CYLINDER => .ShapeShapeCollide .Convex .Cylinder
  | .GEOM_CONVEX, .GEOM_CONVEX => .ShapeShapeCollide .Convex .Convex
  | .GEOM_CONVEX, .GEOM_PLANE => .ShapeShapeCollide .Convex .Plane
  | .GEOM_CONVEX, .GEOM_HALFSPACE => .ShapeShapeCollide .Convex .Halfspace
  | .GEOM_PLANE, .GEOM_BOX => .ShapeShapeCollide .Plane .Box
  | .GEOM_PLANE, .GEOM_SPHERE => .ShapeShapeCollide .Plane .Sphere
  | .GEOM_PLANE, .GEOM_ELLIPSOID => .ShapeShapeCollide .Plane .Ellipsoid
  | .GEOM_PLANE, .GEOM_CAPSULE => .ShapeShapeCollide .Plane .Capsule
  | .GEOM_PLANE, .GEOM_CONE => .ShapeShapeCollide .Plane .Cone
  | .GEOM_PLANE, .GEOM_CYLINDER => .ShapeShapeCollide .Plane .Cylinder
  | .GEOM_PLANE, .GEOM_CONVEX => .ShapeShapeCollide .Plane .Convex
  | .GEOM_PLANE, .GEOM_PLANE => .ShapeShapeCollide .Plane .Plane
  | .GEOM_PLANE, .GEOM_HALFSPACE => .ShapeShapeCollide .Plane .Halfspace
  | .GEOM_HALFSPACE, .GEOM_BOX => .ShapeShapeCollide .Halfspace .Box
  | .GEOM_HALFSPACE, .GEOM_SPHERE => .ShapeShapeCollide .Halfspace .Sphere
  | .GEOM_HALFSPACE, .GEOM_CAPSULE => .ShapeShapeCollide .Halfspace .Capsule
  | .GEOM_HALFSPACE, .GEOM_CONE => .ShapeShapeCollide .Halfspace .Cone
  | .GEOM_HALFSPACE, .GEOM_CYLINDER => .ShapeShapeCollide .Halfspace .Cylinder
  | .GEOM_HALFSPACE, .GEOM_CONVEX => .ShapeShapeCollide .Halfspace .Convex
  | .GEOM_HALFSPACE, .GEOM_PLANE => .ShapeShapeCollide .Halfspace .Plane
  | .GEOM_HALFSPACE, .GEOM_HALFSPACE => .ShapeShapeCollide .Halfspace .Halfspace
  | .BV_AABB, .GEOM_BOX => .BVHShapeColliderCollide .AABB .Box
  | .BV_AABB, .GEOM_SPHERE => .BVHShapeColliderCollide .AABB .Sphere
  | .BV_AABB, .GEOM_ELLIPSOID => .BVHShapeColliderCollide .AABB .Ellipsoid
  | .BV_AABB, .GEOM_CAPSULE => .BVHShapeColliderCollide .AABB .Capsule
  | .BV_AABB, .GEOM_CONE => .BVHShapeColliderCollide .AABB .Cone
  | .BV_AABB, .GEOM_CYLINDER => .BVHShapeColliderCollide .AABB .Cylinder
  | .BV_AABB, .GEOM_CONVEX => .BVHShapeColliderCollide .AABB .Convex
  | .BV_AABB, .GEOM_PLANE => .BVHShapeColliderCollide .AABB .Plane
  | .BV_AABB, .GEOM_HALFSPACE => .BVHShapeColliderCollide .AABB .Halfspace
  | .BV_OBB, .GEOM_BOX => .BVHShapeColliderCollide .OBB .Box
  | .BV_OBB, .GEOM_SPHERE => .BVHShapeColliderCollide .OBB .Sphere
  | .BV_OBB, .GEOM_ELLIPSOID => .BVHShapeColliderCollide .OBB .Ellipsoid
  | .BV_OBB, .GEOM_CAPSULE => .BVHShapeColliderCollide .OBB .Capsule
  | .BV_OBB, .GEOM_CONE => .BVHShapeColliderCollide .OBB .Cone
  | .BV_OBB, .GEOM_CYLINDER => .BVHShapeColliderCollide .OBB .Cylinder
  | .BV_OBB, .GEOM_CONVEX => .BVHShapeColliderCollide .OBB .Convex
  | .BV_OBB, .GEOM_PLANE => .BVHShapeColliderCollide .OBB .Plane
  | .BV_OBB, .GEOM_HALFSPACE => .BVHShapeColliderCollide .OBB .Halfspace
  | .BV_RSS, .GEOM_BOX => .BVHShapeColliderCollide .RSS .Box
  | .BV_RSS, .GEOM_SPHERE => .BVHShapeColliderCollide .RSS .Sphere
  | .BV_RSS, .GEOM_ELLIPSOID => .BVHShapeColliderCollide .RSS .Ellipsoid
  | .BV_RSS, .GEOM_CAPSULE => .BVHShapeColliderCollide .RSS .Capsule
  | .BV_RSS, .GEOM_CONE => .BVHShapeColliderCollide .RSS .Cone
  | .BV_RSS, .GEOM_CYLINDER => .BVHShapeColliderCollide .RSS .Cylinder
  | .BV_RSS, .GEOM_CONVEX => .BVHShapeColliderCollide .RSS .Convex
  | .BV_RSS, .GEOM_PLANE => .BVHShapeColliderCollide .RSS .Plane
  | .BV_RSS, .GEOM_HALFSPACE => .BVHShapeColliderCollide .RSS .Halfspace
  | .BV_KDOP16, .GEOM_BOX => .BVHShapeColliderCollide .KDOP16 .Box
  | .BV_KDOP16, .GEOM_SPHERE => .BVHShapeColliderCollide .KDOP16 .Sphere
  | .BV_KDOP16, .GEOM_ELLIPSOID => .BVHShapeColliderCollide .KDOP16 .Ellipsoid
  | .BV_KDOP16, .GEOM_CAPSULE => .BVHShapeColliderCollide .KDOP16 .Capsule
  | .BV_KDOP16, .GEOM_CONE => .BVHShapeColliderCollide .KDOP16 .Cone
  | .BV_KDOP16, .GEOM_CYLINDER => .BVHShapeColliderCollide .KDOP16 .Cylinder
  | .BV_KDOP16, .GEOM_CONVEX => .BVHShapeColliderCollide .KDOP16 .Convex
  | .BV_KDOP16, .GEOM_PLANE => .BVHShapeColliderCollide .KDOP16 .Plane
  | .BV_KDOP16, .GEOM_HALFSPACE => .BVHShapeColliderCollide .KDOP16 .Halfspace
  | .BV_KDOP18, .GEOM_BOX => .BVHShapeColliderCollide .KDOP18 .Box
  | .BV_KDOP18, .GEOM_SPHERE => .BVHShapeColliderCollide .KDOP18 .Sphere
  | .BV_KDOP18, .GEOM_ELLIPSOID => .BVHShapeColliderCollide .KDOP18 .Ellipsoid
  | .BV_KDOP18, .GEOM_CAPSULE => .BVHShapeColliderCollide .KDOP18 .Capsule
  | .BV_KDOP18, .GEOM_CONE => .BVHShapeColliderCollide .KDOP18 .Cone
  | .BV_KDOP18, .GEOM_CYLINDER => .BVHShapeColliderCollide .KDOP18 .Cylinder
  | .BV_KDOP18, .GEOM_CONVEX => .BVHShapeColliderCollide .KDOP18 .Convex
  | .BV_KDOP18, .GEOM_PLANE => .BVHShapeColliderCollide .KDOP18 .Plane
  | .BV_KDOP18, .GEOM_HALFSPACE => .BVHShapeColliderCollide .KDOP18 .Halfspace
  | .BV_KDOP24, .GEOM_BOX => .BVHShapeColliderCollide .KDOP24 .Box
  | .BV_KDOP24, .GEOM_SPHERE => .BVHShapeColliderCollide .KDOP24 .Sphere
  | .BV_KDOP24, .GEOM_ELLIPSOID => .BVHShapeColliderCollide .KDOP24 .Ellipsoid
  | .BV_KDOP24, .GEOM_CAPSULE => .BVHShapeColliderCollide .KDOP24 .Capsule
  | .BV_KDOP24, .GEOM_CONE => .BVHShapeColliderCollide .KDOP24 .Cone
  | .BV_KDOP24, .GEOM_CYLINDER => .BVHShapeColliderCollide .KDOP24 .Cylinder
  | .BV_KDOP24, .GEOM_CONVEX => .BVHShapeColliderCollide .KDOP24 .Convex
  | .BV_KDOP24, .GEOM_PLANE => .BVHShapeColliderCollide .KDOP24 .Plane
  | .BV_KDOP24, .GEOM_HALFSPACE => .BVHShapeColliderCollide .KDOP24 .Halfspace
  | .BV_kIOS, .GEOM_BOX => .BVHShapeColliderCollide .kIOS .Box
  | .BV_kIOS, .GEOM_SPHERE => .BVHShapeColliderCollide .kIOS .Sphere
  | .BV_kIOS, .GEOM_ELLIPSOID => .BVHShapeColliderCollide .kIOS .Ellipsoid
  | .BV_kIOS, .GEOM_CAPSULE => .BVHShapeColliderCollide .kIOS .Capsule
  | .BV_kIOS, .GEOM_CONE => .BVHShapeColliderCollide .kIOS .Cone
  | .BV_kIOS, .GEOM_CYLINDER => .BVHShapeColliderCollide .kIOS .Cylinder
  | .BV_kIOS, .GEOM_CONVEX => .BVHShapeColliderCollide .kIOS .Convex
  | .BV_kIOS, .GEOM_PLANE => .BVHShapeColliderCollide .kIOS .Plane
  | .BV_kIOS, .GEOM_HALFSPACE => .BVHShapeColliderCollide .kIOS .Halfspace
  | .BV_OBBRSS, .GEOM_BOX => .BVHShapeColliderCollide .OBBRSS .Box
  | .BV_OBBRSS, .GEOM_SPHERE => .BVHShapeColliderCollide .OBBRSS .Sphere
  | .BV_OBBRSS, .GEOM_ELLIPSOID => .BVHShapeColliderCollide .OBBRSS .Ellipsoid
  | .BV_OBBRSS, .GEOM_CAPSULE => .BVHShapeColliderCollide .OBBRSS .Capsule
  | .BV_OBBRSS, .GEOM_CONE => .BVHShapeColliderCollide .OBBRSS .Cone
  | .BV_OBBRSS, .GEOM_CYLINDER => .BVHShapeColliderCollide .OBBRSS .Cylinder
  | .BV_OBBRSS, .GEOM_CONVEX => .BVHShapeColliderCollide .OBBRSS .Convex
  | .BV_OBBRSS, .GEOM_PLANE => .BVHShapeColliderCollide .OBBRSS .Plane
  | .BV_OBBRSS, .GEOM_HALFSPACE => .BVHShapeColliderCollide .OBBRSS .Halfspace
  | .BV_AABB, .BV_AABB => .BVHCollide .AABB
  | .BV_OBB, .BV_OBB => .BVHCollide .OBB
  | .BV_RSS, .BV_RSS => .BVHCollide .RSS
  | .BV_KDOP16, .BV_KDOP16 => .BVHCollide .KDOP16
  | .BV_KDOP18, .BV_KDOP18 => .BVHCollide .KDOP18
  | .BV_KDOP24, .BV_KDOP24 => .BVHCollide .KDOP24
  | .BV_kIOS, .BV_kIOS => .BVHCollide .kIOS
  | .BV_OBBRSS, .BV_OBBRSS => .BVHCollide .OBBRSS
  | .GEOM_OCTREE, .GEOM_BOX => .OcTreeShapeCollide .Box
  | .GEOM_OCTREE, .GEOM_SPHERE => .OcTreeShapeCollide .Sphere
  | .GEOM_OCTREE, .GEOM_ELLIPSOID => .OcTreeShapeCollide .Ellipsoid
  | .GEOM_OCTREE, .GEOM_CAPSULE => .OcTreeShapeCollide .Capsule
  | .GEOM_OCTREE, .GEOM_CONE => .OcTreeShapeCollide .Cone
  | .GEOM_OCTREE, .GEOM_CYLINDER => .OcTreeShapeCollide .Cylinder
  | .GEOM_OCTREE, .GEOM_CONVEX => .OcTreeShapeCollide .Convex
  | .GEOM_OCTREE, .GEOM_PLANE => .OcTreeShapeCollide .Plane
  | .GEOM_OCTREE, .GEOM_HALFSPACE => .OcTreeShapeCollide .Halfspace
  | .GEOM_BOX, .GEOM_OCTREE => .ShapeOcTreeCollide .Box
  | .GEOM_SPHERE, .GEOM_OCTREE => .ShapeOcTreeCollide .Sphere
  | .GEOM_ELLIPSOID, .GEOM_OCTREE => .ShapeOcTreeCollide .Ellipsoid
  | .GEOM_CAPSULE, .GEOM_OCTREE => .ShapeOcTreeCollide .Capsule
  | .GEOM_CONE, .GEOM_OCTREE => .ShapeOcTreeCollide .Cone
  | .GEOM_CYLINDER, .GEOM_OCTREE => .ShapeOcTreeCollide .Cylinder
  | .GEOM_CONVEX, .GEOM_OCTREE => .ShapeOcTreeCollide .Convex
  | .GEOM_PLANE, .GEOM_OCTREE => .ShapeOcTreeCollide .Plane
  | .GEOM_HALFSPACE, .GEOM_OCTREE => .ShapeOcTreeCollide .Halfspace
  | .GEOM_OCTREE, .GEOM_OCTREE => .OcTreeCollide
  | .GEOM_OCTREE, .BV_AABB => .OcTreeBVHCollide .AABB
  | .GEOM_OCTREE, .BV_OBB => .OcTreeBVHCollide .OBB
  | .GEOM_OCTREE, .BV_RSS => .OcTreeBVHCollide .RSS
  | .GEOM_OCTREE, .BV_OBBRSS => .OcTreeBVHCollide .OBBRSS
  | .GEOM_OCTREE, .BV_kIOS => .OcTreeBVHCollide .kIOS
  | .GEOM_OCTREE, .BV_KDOP16 => .OcTreeBVHCollide .KDOP16
  | .GEOM_OCTREE, .BV_KDOP18 => .OcTreeBVHCollide .KDOP18
  | .GEOM_OCTREE, .BV_KDOP24 => .OcTreeBVHCollide .KDOP24
  | .BV_AABB, .GEOM_OCTREE => .BVHOcTreeCollide .AABB
  | .BV_OBB, .GEOM_OCTREE => .BVHOcTreeCollide .OBB
  | .BV_RSS, .GEOM_OCTREE => .BVHOcTreeCollide .RSS
  | .BV_OBBRSS, .GEOM_OCTREE => .BVHOcTreeCollide .OBBRSS
  | .BV_kIOS, .GEOM_OCTREE => .BVHOcTreeCollide .kIOS
  | .BV_KDOP16, .GEOM_OCTREE => .BVHOcTreeCollide .KDOP16
  | .BV_KDOP18, .GEOM_OCTREE => .BVHOcTreeCollide .KDOP18
  | .BV_KDOP24, .GEOM_OCTREE => .BVHOcTreeCollide .KDOP24
  | _, _ => .NULL

end fcl


namespace fcl

/-- The scalar type `S = NarrowPhaseSolver::S`; the dispatch layer only copies
and stores scalars, so it is modelled by `Int`. -/
abbrev S := Int

/-- A 3-vector, as used for the cached GJK guess; only stored and copied at
this layer. -/
structure Vec3 where
  x : S
  y : S
  z : S
deriving DecidableEq, Repr

/-- A contact record; its payload is irrelevant to the dispatch layer, which
only counts contacts. -/
structure Contact where
  cid : Nat
deriving DecidableEq, Repr

/-- A cost-source record; opaque at this layer. -/
structure CostSource where
  sid : Nat
deriving DecidableEq, Repr

/-- Modelled from the spec: `CollisionResult` (collision_data.h is not under
src/) — an ordered sequence of contacts, an ordered sequence of cost sources,
and the updated cached GJK guess (spec, section 3). -/
structure CollisionResult where
  contacts : List Contact
  cost_sources : List CostSource
  cached_gjk_guess : Vec3
deriving DecidableEq, Repr

/-- `result.numContacts()`: the number of accumulated contact records. -/
def CollisionResult.numContacts (r : CollisionResult) : Nat :=
  r.contacts.length

/-- Modelled from the spec: `CollisionRequest` (collision_data.h is not under
src/) with the fields the dispatch layer reads (spec, section 3). -/
structure CollisionRequest where
  num_max_contacts : Nat
  enable_contact : Bool
  num_max_cost_sources : Nat
  enable_cost : Bool
  use_approximate_cost : Bool
  enable_cached_gjk_guess : Bool
  cached_gjk_guess : Vec3
deriving DecidableEq, Repr

/-- Modelled from the spec: the five-argument `CollisionRequest` constructor
used at the `only_cost_request` sites binds, in order, `num_max_contacts`,
`enable_contact`, `num_max_cost_sources`, `enable_cost`,
`use_approximate_cost`; the remaining fields keep their defaults
(`enable_cached_gjk_guess = false`, zero guess). -/
def mkRequest5 (n : Nat) (ec : Bool) (m : Nat) (cost : Bool) (approx : Bool) :
    CollisionRequest :=
  ⟨n, ec, m, cost, approx, false, ⟨0, 0, 0⟩⟩

/-- The narrow-phase solver state visible to this layer through
`enableCachedGuess` / `setCachedGuess` / `getCachedGuess` (spec, section 6). -/
structure SolverState where
  cachedGuessEnabled : Bool
  cachedGuess : Vec3
deriving DecidableEq, Repr

/-- The mutable state a dispatch call threads: the caller-owned result sink,
the shared solver, and a counter of `new BVHModel(*obj)` deep copies performed
(the observable allocation effect of the generic mesh paths). -/
structure WorldState where
  result : CollisionResult
  solver : SolverState
  modelCopies : Nat
deriving DecidableEq, Repr

/-- Opaque token for a geometry operand the dispatch layer never inspects. -/
abbrev GeomId := Nat

/-- Opaque token for a `Transform3`; only passed along by this layer. -/
abbrev Tf := Nat

/-- The `Box` shape as the dispatch layer uses it: an opaque geometric payload
(produced by `constructBox`) plus the three cost scalars every
`CollisionGeometry` carries and that the approximate-cost path overwrites. -/
structure Box where
  geomData : Nat
  cost_density : S
  threshold_occupied : S
  threshold_free : S
deriving DecidableEq, Repr

/-- A shape operand as received by `ShapeShapeCollide` and the octree-shape
wrappers: either a borrowed opaque geometry or the locally constructed `Box`
of the approximate-cost path. -/
inductive GeomOp
  | ofGeom (g : GeomId)
  | ofBox (b : Box)
deriving DecidableEq, Repr

/-- The part of a `BVHModel<BV>` the wrappers in collision_func_matrix.h read:
the root bounding volume `getBV(0).bv` (opaque payload handed to
`constructBox`) and the three cost scalars. -/
structure BVHModelData where
  rootBV : Nat
  cost_density : S
  threshold_occupied : S
  threshold_free : S
deriving DecidableEq, Repr

/-- Which mesh-shape collision traversal node a call instantiates: the generic
`MeshShapeCollisionTraversalNode<BV, Shape>` or one of the oriented
specialisations `MeshShapeCollisionTraversalNode{OBB,RSS,kIOS,OBBRSS}`. -/
inductive MeshShapeNodeT
  | generic (bv : BVT)
  | orientedOBB
  | orientedRSS
  | orientedkIOS
  | orientedOBBRSS
deriving DecidableEq, Repr

/-- Which mesh-mesh collision traversal node a call instantiates. -/
inductive MeshNodeT
  | generic (bv : BVT)
  | orientedOBB
  | orientedOBBRSS
  | orientedkIOS
deriving DecidableEq, Repr

/-- Modelled from the spec: the code outside these headers that the wrappers
call into — `request.isSatisfied` (spec, section 3), `constructBox`
(construct_box.h), and the recursive traversal driver `collide(&node)` for
each traversal-node type together with its `initialize` (spec, sections
4.2-4.3).  Each traversal reads its operands and the request and updates the
result sink; the shape-shape traversal additionally reads and updates the
solver's cached GJK guess through the narrow-phase calls.  No traversal can
touch the solver's enable flag or the copy counter. -/
structure Ext where
  isSatisfied : CollisionRequest → CollisionResult → Bool
  constructBox : Nat → Tf → Box × Tf
  traverseShapeShape : ShapeT → ShapeT → GeomOp → Tf → GeomOp → Tf →
    CollisionRequest → CollisionResult → Vec3 → CollisionResult × Vec3
  traverseMeshShape : MeshShapeNodeT → ShapeT → BVHModelData → Tf → GeomOp →
    Tf → CollisionRequest → CollisionResult → CollisionResult
  traverseMesh : MeshNodeT → BVHModelData → Tf → BVHModelData → Tf →
    CollisionRequest → CollisionResult → CollisionResult
  traverseOcTreeShape : ShapeT → GeomId → Tf → GeomOp → Tf →
    CollisionRequest → CollisionResult → CollisionResult
  traverseShapeOcTree : ShapeT → GeomOp → Tf → GeomId → Tf →
    CollisionRequest → CollisionResult → CollisionResult
  traverseOcTree : GeomId → Tf → GeomId → Tf →
    CollisionRequest → CollisionResult → CollisionResult
  traverseOcTreeMesh : BVT → GeomId → Tf → BVHModelData → Tf →
    CollisionRequest → CollisionResult → CollisionResult
  traverseMeshOcTree : BVT → BVHModelData → Tf → GeomId → Tf →
    CollisionRequest → CollisionResult → CollisionResult

/-- `ShapeShapeCollide<Shape1, Shape2>` (collision_func_matrix.h, lines
286-318): early return on a satisfied request; otherwise enable the solver's
cached-guess mode in both branches of the `enable_cached_gjk_guess` test,
seeding the guess from the request only when the flag is set; run the
shape-shape traversal; write the solver's guess back into the result only when
the flag is set; return `result.numContacts()`. -/
def ShapeShapeCollide (ext : Ext) (s1 s2 : ShapeT)
    (o1 : GeomOp) (tf1 : Tf) (o2 : GeomOp) (tf2 : Tf)
    (request : CollisionRequest) (st : WorldState) : Nat × WorldState :=
  if ext.isSatisfied request st.result then (st.result.numContacts, st)
  else
    let solver1 : SolverState :=
      if request.enable_cached_gjk_guess then
        { cachedGuessEnabled := true, cachedGuess := request.cached_gjk_guess }
      else
        { st.solver with cachedGuessEnabled := true }
    let tr := ext.traverseShapeShape s1 s2 o1 tf1 o2 tf2 request st.result
      solver1.cachedGuess
    let solver2 : SolverState := { solver1 with cachedGuess := tr.2 }
    let r2 : CollisionResult :=
      if request.enable_cached_gjk_guess then
        { tr.1 with cached_gjk_guess := solver2.cachedGuess }
      else tr.1
    let st2 : WorldState := { st with result := r2, solver := solver2 }
    (st2.result.numContacts, st2)

/-- The primary template `BVHShapeCollider<BV, Shape>::collide`
(collision_func_matrix.h, lines 324-380): early return; in the
approximate-cost branch run a no-cost mesh-shape traversal on a deep copy of
the model, then construct a box from the root BV, inherit the cost scalars,
and dispatch `ShapeShapeCollide<Box, Shape>` with the contact-suppressing
request; otherwise a plain mesh-shape traversal, again on a deep copy. -/
def BVHShapeCollider_generic_collide (ext : Ext) (bv : BVT) (s : ShapeT)
    (o1 : BVHModelData) (tf1 : Tf) (o2 : GeomOp) (tf2 : Tf)
    (request : CollisionRequest) (st : WorldState) : Nat × WorldState :=
  if ext.isSatisfied request st.result then (st.result.numContacts, st)
  else if request.enable_cost && request.use_approximate_cost then
    let no_cost_request : CollisionRequest := { request with enable_cost := false }
    let st1 : WorldState := { st with modelCopies := st.modelCopies + 1 }
    let r1 := ext.traverseMeshShape (.generic bv) s o1 tf1 o2 tf2
      no_cost_request st1.result
    let st2 : WorldState := { st1 with result := r1 }
    let boxp := ext.constructBox o1.rootBV tf1
    let box : Box :=
      { boxp.1 with
        cost_density := o1.cost_density
        threshold_occupied := o1.threshold_occupied
        threshold_free := o1.threshold_free }
    let only_cost_request := mkRequest5 st2.result.numContacts false
      request.num_max_cost_sources true false
    let st3 := (ShapeShapeCollide ext .Box s (.ofBox box) boxp.2 o2 tf2
      only_cost_request st2).2
    (st3.result.numContacts, st3)
  else
    let st1 : WorldState := { st with modelCopies := st.modelCopies + 1 }
    let r1 := ext.traverseMeshShape (.generic bv) s o1 tf1 o2 tf2 request
      st1.result
    let st2 : WorldState := { st1 with result := r1 }
    (st2.result.numContacts, st2)

/-- `details::orientedBVHShapeCollide<OrientMeshShapeCollisionTraveralNode,
BV, Shape>` (collision_func_matrix.h, lines 388-435): same two branches as the
generic collider but traversing the borrowed model with an oriented traversal
node and performing no deep copy. -/
def orientedBVHShapeCollide (ext : Ext) (node : MeshShapeNodeT) (bv : BVT)
    (s : ShapeT) (o1 : BVHModelData) (tf1 : Tf) (o2 : GeomOp) (tf2 : Tf)
    (request : CollisionRequest) (st : WorldState) : Nat × WorldState :=
  if ext.isSatisfied request st.result then (st.result.numContacts, st)
  else if request.enable_cost && request.use_approximate_cost then
    let no_cost_request : CollisionRequest := { request with enable_cost := false }
    let r1 := ext.traverseMeshShape node s o1 tf1 o2 tf2 no_cost_request
      st.result
    let st2 : WorldState := { st with result := r1 }
    let boxp := ext.constructBox o1.rootBV tf1
    let box : Box :=
      { boxp.1 with
        cost_density := o1.cost_density
        threshold_occupied := o1.threshold_occupied
        threshold_free := o1.threshold_free }
    let only_cost_request := mkRequest5 st2.result.numContacts false
      request.num_max_cost_sources true false
    let st3 := (ShapeShapeCollide ext .Box s (.ofBox box) boxp.2 o2 tf2
      only_cost_request st2).2
    (st3.result.numContacts, st3)
  else
    let r1 := ext.traverseMeshShape node s o1 tf1 o2 tf2 request st.result
    let st2 : WorldState := { st with result := r1 }
    (st2.result.numContacts, st2)

/-- The dispatch the template specialisations of `BVHShapeCollider` perform
(collision_func_matrix.h, lines 440-527): `OBB`, `RSS`, `kIOS` and `OBBRSS`
route to `details::orientedBVHShapeCollide` with the corresponding oriented
traversal node; every other BV instantiates the primary template. -/
def BVHShapeCollider_collide (ext : Ext) (bv : BVT) (s : ShapeT)
    (o1 : BVHModelData) (tf1 : Tf) (o2 : GeomOp) (tf2 : Tf)
    (request : CollisionRequest) (st : WorldState) : Nat × WorldState :=
  match bv with
  | .OBB => orientedBVHShapeCollide ext .orientedOBB .OBB s o1 tf1 o2 tf2
      request st
  | .RSS => orientedBVHShapeCollide ext .orientedRSS .RSS s o1 tf1 o2 tf2
      request st
  | .kIOS => orientedBVHShapeCollide ext .orientedkIOS .kIOS s o1 tf1 o2 tf2
      request st
  | .OBBRSS => orientedBVHShapeCollide ext .orientedOBBRSS .OBBRSS s o1 tf1
      o2 tf2 request st
  | b => BVHShapeCollider_generic_collide ext b s o1 tf1 o2 tf2 request st

/-- The primary template `BVHCollideImpl<S, BV>::run` (collision_func_matrix.h,
lines 529-558): early return; deep-copy both models; run the generic mesh-mesh
traversal; return `result.numContacts()`. -/
def BVHCollideImpl_generic_run (ext : Ext) (bv : BVT)
    (o1 : BVHModelData) (tf1 : Tf) (o2 : BVHModelData) (tf2 : Tf)
    (request : CollisionRequest) (st : WorldState) : Nat × WorldState :=
  if ext.isSatisfied request st.result then (st.result.numContacts, st)
  else
    let st1 : WorldState := { st with modelCopies := st.modelCopies + 2 }
    let r1 := ext.traverseMesh (.generic bv) o1 tf1 o2 tf2 request st1.result
    let st2 : WorldState := { st1 with result := r1 }
    (st2.result.numContacts, st2)

/-- `details::orientedMeshCollide` (collision_func_matrix.h, lines 578-597):
early return; traverse the two borrowed models with an oriented mesh-mesh
node; return `result.numContacts()`. -/
def orientedMeshCollide (ext : Ext) (node : MeshNodeT)
    (o1 : BVHModelData) (tf1 : Tf) (o2 : BVHModelData) (tf2 : Tf)
    (request : CollisionRequest) (st : WorldState) : Nat × WorldState :=
  if ext.isSatisfied request st.result then (st.result.numContacts, st)
  else
    let r1 := ext.traverseMesh node o1 tf1 o2 tf2 request st.result
    let st2 : WorldState := { st with result := r1 }
    (st2.result.numContacts, st2)

/-- `BVHCollide<BV>` together with the `BVHCollideImpl` specialisations
(collision_func_matrix.h, lines 560-667): `OBB`, `OBBRSS` and `kIOS` route to
`details::orientedMeshCollide`; every other BV runs the primary template. -/
def BVHCollide (ext : Ext) (bv : BVT)
    (o1 : BVHModelData) (tf1 : Tf) (o2 : BVHModelData) (tf2 : Tf)
    (request : CollisionRequest) (st : WorldState) : Nat × WorldState :=
  match bv with
  | .OBB => orientedMeshCollide ext .orientedOBB o1 tf1 o2 tf2 request st
  | .OBBRSS => orientedMeshCollide ext .orientedOBBRSS o1 tf1 o2 tf2 request st
  | .kIOS => orientedMeshCollide ext .orientedkIOS o1 tf1 o2 tf2 request st
  | b => BVHCollideImpl_generic_run ext b o1 tf1 o2 tf2 request st

/-- `ShapeOcTreeCollide<Shape>` (collision_func_matrix.h, lines 100-122):
early return; shape-octree traversal through the `OcTreeSolver`; return
`result.numContacts()`. -/
def ShapeOcTreeCollide (ext : Ext) (s : ShapeT)
    (o1 : GeomOp) (tf1 : Tf) (o2 : GeomId) (tf2 : Tf)
    (request : CollisionRequest) (st : WorldState) : Nat × WorldState :=
  if ext.isSatisfied request st.result then (st.result.numContacts, st)
  else
    let r1 := ext.traverseShapeOcTree s o1 tf1 o2 tf2 request st.result
    let st2 : WorldState := { st with result := r1 }
    (st2.result.numContacts, st2)

/-- `OcTreeShapeCollide<Shape>` (collision_func_matrix.h, lines 126-148). -/
def OcTreeShapeCollide (ext : Ext) (s : ShapeT)
    (o1 : GeomId) (tf1 : Tf) (o2 : GeomOp) (tf2 : Tf)
    (request : CollisionRequest) (st : WorldState) : Nat × WorldState :=
  if ext.isSatisfied request st.result then (st.result.numContacts, st)
  else
    let r1 := ext.traverseOcTreeShape s o1 tf1 o2 tf2 request st.result
    let st2 : WorldState := { st with result := r1 }
    (st2.result.numContacts, st2)

/-- `OcTreeCollide` (collision_func_matrix.h, lines 152-174). -/
def OcTreeCollide (ext : Ext)
    (o1 : GeomId) (tf1 : Tf) (o2 : GeomId) (tf2 : Tf)
    (request : CollisionRequest) (st : WorldState) : Nat × WorldState :=
  if ext.isSatisfied request st.result then (st.result.numContacts, st)
  else
    let r1 := ext.traverseOcTree o1 tf1 o2 tf2 request st.result
    let st2 : WorldState := { st with result := r1 }
    (st2.result.numContacts, st2)

/-- `OcTreeBVHCollide<BV>` (collision_func_matrix.h, lines 178-227): early
return; with approximate cost, run a no-cost octree-mesh traversal, construct
a box from the mesh root BV, inherit the mesh's cost scalars and dispatch
`OcTreeShapeCollide<Box>` with the contact-suppressing request; otherwise a
plain octree-mesh traversal. -/
def OcTreeBVHCollide (ext : Ext) (bv : BVT)
    (o1 : GeomId) (tf1 : Tf) (o2 : BVHModelData) (tf2 : Tf)
    (request : CollisionRequest) (st : WorldState) : Nat × WorldState :=
  if ext.isSatisfied request st.result then (st.result.numContacts, st)
  else if request.enable_cost && request.use_approximate_cost then
    let no_cost_request : CollisionRequest := { request with enable_cost := false }
    let r1 := ext.traverseOcTreeMesh bv o1 tf1 o2 tf2 no_cost_request st.result
    let st2 : WorldState := { st with result := r1 }
    let boxp := ext.constructBox o2.rootBV tf2
    let box : Box :=
      { boxp.1 with
        cost_density := o2.cost_density
        threshold_occupied := o2.threshold_occupied
        threshold_free := o2.threshold_free }
    let only_cost_request := mkRequest5 st2.result.numContacts false
      request.num_max_cost_sources true false
    let st3 := (OcTreeShapeCollide ext .Box o1 tf1 (.ofBox box) boxp.2
      only_cost_request st2).2
    (st3.result.numContacts, st3)
  else
    let r1 := ext.traverseOcTreeMesh bv o1 tf1 o2 tf2 request st.result
    let st2 : WorldState := { st with result := r1 }
    (st2.result.numContacts, st2)

/-- `BVHOcTreeCollide<BV>` (collision_func_matrix.h, lines 231-280): the
mirror image of `OcTreeBVHCollide`, with the box built from the first operand
(the mesh) and the cost pass dispatched through `ShapeOcTreeCollide<Box>`. -/
def BVHOcTreeCollide (ext : Ext) (bv : BVT)
    (o1 : BVHModelData) (tf1 : Tf) (o2 : GeomId) (tf2 : Tf)
    (request : CollisionRequest) (st : WorldState) : Nat × WorldState :=
  if ext.isSatisfied request st.result then (st.result.numContacts, st)
  else if request.enable_cost && request.use_approximate_cost then
    let no_cost_request : CollisionRequest := { request with enable_cost := false }
    let r1 := ext.traverseMeshOcTree bv o1 tf1 o2 tf2 no_cost_request st.result
    let st2 : WorldState := { st with result := r1 }
    let boxp := ext.constructBox o1.rootBV tf1
    let box : Box :=
      { boxp.1 with
        cost_density := o1.cost_density
        threshold_occupied := o1.threshold_occupied
        threshold_free := o1.threshold_free }
    let only_cost_request := mkRequest5 st2.result.numContacts false
      request.num_max_cost_sources true false
    let st3 := (ShapeOcTreeCollide ext .Box (.ofBox box) boxp.2 o2 tf2
      only_cost_request st2).2
    (st3.result.numContacts, st3)
  else
    let r1 := ext.traverseMeshOcTree bv o1 tf1 o2 tf2 request st.result
    let st2 : WorldState := { st with result := r1 }
    (st2.result.numContacts, st2)

end fcl

namespace fcl

/-- `ShapeOcTreeCollisionTraversalNode<Shape, NarrowPhaseSolver>`
(shape_octree_collision_traversal_node.h): the fields the node carries —
borrowed operands (null after default construction), the two transforms and
the octree solver. -/
structure ShapeOcTreeCollisionTraversalNode where
  model1 : Option GeomId
  model2 : Option GeomId
  tf1 : Tf
  tf2 : Tf
  otsolver : Option Nat
deriving DecidableEq, Repr

/-- `ShapeOcTreeCollisionTraversalNode::BVTesting(int, int)`
(shape_octree_collision_traversal_node.h, lines 108-113): ignores both node
indices and returns `false`. -/
def ShapeOcTreeCollisionTraversalNode.BVTesting
    (_node : ShapeOcTreeCollisionTraversalNode) (_i _j : Int) : Bool :=
  false

/-- Modelled from the spec: a shape-shape traversal honours the request's
contact cap — contacts are only appended and production stops at
`num_max_contacts` ("stop after this many contacts", spec, section 3), so the
final count lies between the initial count and the larger of the cap and the
initial count. -/
def HonoursContactCapSS (ext : Ext) : Prop :=
  ∀ (s1 s2 : ShapeT) (o1 : GeomOp) (tf1 : Tf) (o2 : GeomOp) (tf2 : Tf)
    (req : CollisionRequest) (r : CollisionResult) (g : Vec3),
    r.numContacts ≤
      (ext.traverseShapeShape s1 s2 o1 tf1 o2 tf2 req r g).1.numContacts ∧
    (ext.traverseShapeShape s1 s2 o1 tf1 o2 tf2 req r g).1.numContacts ≤
      max req.num_max_contacts r.numContacts

/-- Modelled from the spec: the octree-shape traversal honours the request's
contact cap, as `HonoursContactCapSS`. -/
def HonoursContactCapOTS (ext : Ext) : Prop :=
  ∀ (s : ShapeT) (o1 : GeomId) (tf1 : Tf) (o2 : GeomOp) (tf2 : Tf)
    (req : CollisionRequest) (r : CollisionResult),
    r.numContacts ≤
      (ext.traverseOcTreeShape s o1 tf1 o2 tf2 req r).numContacts ∧
    (ext.traverseOcTreeShape s o1 tf1 o2 tf2 req r).numContacts ≤
      max req.num_max_contacts r.numContacts

/-- Modelled from the spec: the shape-octree traversal honours the request's
contact cap, as `HonoursContactCapSS`. -/
def HonoursContactCapSOT (ext : Ext) : Prop :=
  ∀ (s : ShapeT) (o1 : GeomOp) (tf1 : Tf) (o2 : GeomId) (tf2 : Tf)
    (req : CollisionRequest) (r : CollisionResult),
    r.numContacts ≤
      (ext.traverseShapeOcTree s o1 tf1 o2 tf2 req r).numContacts ∧
    (ext.traverseShapeOcTree s o1 tf1 o2 tf2 req r).numContacts ≤
      max req.num_max_contacts r.numContacts

/-- The BV types whose `BVHShapeCollider` is specialised to the oriented
mesh-shape traversal (collision_func_matrix.h, lines 440-527). -/
def isOrientedBV : BVT → Bool
  | .OBB | .RSS | .kIOS | .OBBRSS => true
  | _ => false

/-- The mesh-shape traversal node the `BVHShapeCollider` of a given BV type
instantiates. -/
def meshShapeNodeOf : BVT → MeshShapeNodeT
  | .OBB => .orientedOBB
  | .RSS => .orientedRSS
  | .kIOS => .orientedkIOS
  | .OBBRSS => .orientedOBBRSS
  | b => .generic b

/-- `BVHModelType` (BVH_internal.h, referenced by BV_fitter.h): a model holds
triangles, a point cloud, or is not yet set. -/
inductive BVHModelType
  | BVH_MODEL_UNKNOWN
  | BVH_MODEL_TRIANGLES
  | BVH_MODEL_POINTCLOUD
deriving DecidableEq, Repr

/-- `Triangle` (fcl/math/triangle.h): three indices into the vertex array,
read as `t[0]`, `t[1]`, `t[2]`. -/
structure Triangle where
  v0 : Nat
  v1 : Nat
  v2 : Nat
deriving DecidableEq, Repr

/-- The two operations of a bounding-volume type that the generic `BVFitter`
uses: default construction (`BV bv;`) and merging in a point (`bv += p`). -/
structure BVOps (BV : Type) where
  empty : BV
  addPoint : BV → Vec3 → BV

/-- The state of the generic `BVFitter<BV>` (BV_fitter.h, lines 69-148): the
vertex array, the optional previous-frame vertex array (a null pointer is
`none`), the triangle array and the model-type tag.  Arrays are modelled as
total index functions, matching the unchecked pointer indexing of the
source. -/
structure BVFitter where
  vertices : Nat → Vec3
  prev_vertices : Option (Nat → Vec3)
  tri_indices : Nat → Triangle
  type : BVHModelType

/-- `BVFitter::set(vertices_, tri_indices_, type_)` (BV_fitter.h, lines
77-83): stores the data and nulls `prev_vertices`. -/
def BVFitter.set (vertices_ : Nat → Vec3) (tri_indices_ : Nat → Triangle)
    (type_ : BVHModelType) : BVFitter :=
  ⟨vertices_, none, tri_indices_, type_⟩

/-- `BVFitter::set(vertices_, prev_vertices_, tri_indices_, type_)`
(BV_fitter.h, lines 86-92), the deformable overload: also stores the
previous-frame vertices. -/
def BVFitter.setDeformable (vertices_ : Nat → Vec3)
    (prev_vertices_ : Nat → Vec3) (tri_indices_ : Nat → Triangle)
    (type_ : BVHModelType) : BVFitter :=
  ⟨vertices_, some prev_vertices_, tri_indices_, type_⟩

/-- One iteration of the triangle loop of `BVFitter::fit` (BV_fitter.h, lines
102-115): merge the triangle's three current vertices and, when
`prev_vertices` is non-null, its three previous vertices. -/
def fitStepTri {BV : Type} (ops : BVOps BV) (f : BVFitter) (bv : BV)
    (pidx : Nat) : BV :=
  let t := f.tri_indices pidx
  let bv1 := ops.addPoint bv (f.vertices t.v0)
  let bv2 := ops.addPoint bv1 (f.vertices t.v1)
  let bv3 := ops.addPoint bv2 (f.vertices t.v2)
  match f.prev_vertices with
  | some pv =>
      let bv4 := ops.addPoint bv3 (pv t.v0)
      let bv5 := ops.addPoint bv4 (pv t.v1)
      ops.addPoint bv5 (pv t.v2)
  | none => bv3

/-- One iteration of the point loop of `BVFitter::fit` (BV_fitter.h, lines
119-127): merge the current point and, when `prev_vertices` is non-null, its
previous position. -/
def fitStepPoint {BV : Type} (ops : BVOps BV) (f : BVFitter) (bv : BV)
    (pidx : Nat) : BV :=
  let bv1 := ops.addPoint bv (f.vertices pidx)
  match f.prev_vertices with
  | some pv => ops.addPoint bv1 (pv pidx)
  | none => bv1

/-- `BVFitter::fit(primitive_indices, num_primitives)` (BV_fitter.h, lines
96-131): start from the default-constructed BV; for `TRIANGLES` and
`POINTCLOUD` run the corresponding loop over the selected primitives; for any
other model type return the default BV unchanged. -/
def BVFitter.fit {BV : Type} (f : BVFitter) (ops : BVOps BV)
    (primitive_indices : Nat → Nat) (num_primitives : Nat) : BV :=
  match f.type with
  | .BVH_MODEL_TRIANGLES =>
      (List.range num_primitives).foldl
        (fun bv i => fitStepTri ops f bv (primitive_indices i)) ops.empty
  | .BVH_MODEL_POINTCLOUD =>
      (List.range num_primitives).foldl
        (fun bv i => fitStepPoint ops f bv (primitive_indices i)) ops.empty
  | .BVH_MODEL_UNKNOWN => ops.empty

/-- Concrete BV operations over lists of points, used by the witnesses: the
empty list with cons as merge, so enclosure is list membership. -/
def opsList : BVOps (List Vec3) :=
  ⟨[], fun b p => p :: b⟩

/-- Concrete current-vertex array for witnesses. -/
def vW : Nat → Vec3 := fun k => ⟨Int.ofNat k, 0, 0⟩

/-- Concrete previous-vertex array for witnesses. -/
def pvW : Nat → Vec3 := fun k => ⟨Int.ofNat k, 1, 1⟩

/-- Concrete triangle array for witnesses. -/
def triW : Nat → Triangle := fun _ => ⟨0, 1, 2⟩

/-- A concrete deformable triangle-mesh fitter for witnesses. -/
def fitterW : BVFitter := ⟨vW, some pvW, triW, .BVH_MODEL_TRIANGLES⟩

/-- A concrete fitter left at the `UNKNOWN` model type for witnesses. -/
def fitterU : BVFitter := ⟨vW, some pvW, triW, .BVH_MODEL_UNKNOWN⟩

/-- A trivial instantiation of the external world, used to evaluate the
theorems at concrete inputs: identity traversals and a request-satisfaction
predicate that never fires. -/
def extNeverSat : Ext where
  isSatisfied := fun _ _ => false
  constructBox := fun b tf => (⟨b, 0, 0, 0⟩, tf)
  traverseShapeShape := fun _ _ _ _ _ _ _ r g => (r, g)
  traverseMeshShape := fun _ _ _ _ _ _ _ r => r
  traverseMesh := fun _ _ _ _ _ _ r => r
  traverseOcTreeShape := fun _ _ _ _ _ _ r => r
  traverseShapeOcTree := fun _ _ _ _ _ _ r => r
  traverseOcTree := fun _ _ _ _ _ r => r
  traverseOcTreeMesh := fun _ _ _ _ _ _ r => r
  traverseMeshOcTree := fun _ _ _ _ _ _ r => r

/-- The same trivial world with a request-satisfaction predicate that always
fires, exercising the early-return path. -/
def extAlwaysSat : Ext :=
  { extNeverSat with isSatisfied := fun _ _ => true }

/-- A concrete request for witnesses (no cost, no cached guess). -/
def reqW : CollisionRequest := ⟨3, true, 2, false, false, false, ⟨0, 0, 0⟩⟩

/-- A concrete request for witnesses with `enable_cost` and
`use_approximate_cost` both set. -/
def reqCostW : CollisionRequest := ⟨3, true, 2, true, true, false, ⟨0, 0, 0⟩⟩

/-- A concrete request for witnesses with `enable_cached_gjk_guess` set and a
non-zero guess. -/
def reqGuessW : CollisionRequest := ⟨3, true, 2, false, false, true, ⟨1, 2, 3⟩⟩

/-- A concrete starting world state for witnesses: one contact accumulated,
cached-guess mode off, a non-zero stale guess. -/
def stW : WorldState := ⟨⟨[⟨0⟩], [], ⟨0, 0, 0⟩⟩, ⟨false, ⟨7, 7, 7⟩⟩, 0⟩

/-- A concrete mesh operand for witnesses. -/
def mW : BVHModelData := ⟨5, 2, 1, 0⟩

/-- Claim C1: the claim says every Shape × BVH cell mirrors the BVH × Shape
specialisation with swapped operands and is not the empty sentinel.  In the
source no `collision_matrix[GEOM_*][BV_*]` assignment exists for primitive
shapes: the cell `collision_matrix[GEOM_BOX][BV_AABB]` keeps its `NULL`
initialisation, while the transposed cell is populated. -/
theorem C1_counterexample :
    collision_matrix NodeType.GEOM_BOX NodeType.BV_AABB = CollisionFunc.NULL ∧
    collision_matrix NodeType.BV_AABB NodeType.GEOM_BOX =
      CollisionFunc.BVHShapeColliderCollide BVT.AABB ShapeT.Box := by
  exact ⟨rfl, rfl⟩

/-- Claim C1 (amended): after construction, every Shape × BVH cell (primitive
shape tag row, mesh tag column) is left as the empty `NULL` sentinel — the
swapped dispatch is not stored in the matrix — while every transposed
BVH × Shape cell is populated with the `BVHShapeCollider` specialisation for
that BV and shape. -/
theorem C1_shape_bvh_cells :
    ∀ (s : ShapeT) (b : BVT),
      collision_matrix (nodeOfShape s) (nodeOfBV b) = CollisionFunc.NULL ∧
      collision_matrix (nodeOfBV b) (nodeOfShape s) =
        CollisionFunc.BVHShapeColliderCollide b s := by
  decide

/-- Claim C2: the claim says every ordered pair of primitive shape tags gets a
`ShapeShapeCollide` cell.  The constructor omits the assignment for
`collision_matrix[GEOM_HALFSPACE][GEOM_ELLIPSOID]` (the halfspace row, lines
761-768, has no ellipsoid entry), so that cell keeps the `NULL` sentinel. -/
theorem C2_counterexample :
    collision_matrix NodeType.GEOM_HALFSPACE NodeType.GEOM_ELLIPSOID =
      CollisionFunc.NULL := by
  exact rfl

/-- Claim C2 (amended): every ordered pair of primitive shape tags is populated
with the `ShapeShapeCollide` function for that pair, with the single exception
of `(GEOM_HALFSPACE, GEOM_ELLIPSOID)`, which is left as the empty sentinel. -/
theorem C2_shape_shape_cells :
    ∀ (a b : ShapeT),
      collision_matrix (nodeOfShape a) (nodeOfShape b) =
        if a = ShapeT.Halfspace ∧ b = ShapeT.Ellipsoid then CollisionFunc.NULL
        else CollisionFunc.ShapeShapeCollide a b := by
  decide


/-- Claim C8: for every shape-vs-octree traversal node and every pair of node
indices, `BVTesting(i, j)` returns `false` — the node never prunes at the
bounding-volume test. -/
theorem C8_BVTesting_false :
    ∀ (node : ShapeOcTreeCollisionTraversalNode) (i j : Int),
      node.BVTesting i j = false := by
  intro node i j
  rfl

/-- Helper: the oriented mesh-shape collider returns the contact count of the
result it leaves behind, on every path. -/
lemma orientedBVHShapeCollide_fst_numContacts (ext : Ext)
    (node : MeshShapeNodeT) (bv : BVT) (s : ShapeT) (o1 : BVHModelData)
    (tf1 : Tf) (o2 : GeomOp) (tf2 : Tf) (req : CollisionRequest)
    (st : WorldState) :
    (orientedBVHShapeCollide ext node bv s o1 tf1 o2 tf2 req st).1 =
      (orientedBVHShapeCollide ext node bv s o1 tf1 o2 tf2 req st).2.result.numContacts := by
  unfold orientedBVHShapeCollide
  split
  · rfl
  · split <;> rfl

/-- Helper: the generic mesh-shape collider returns the contact count of the
result it leaves behind, on every path. -/
lemma BVHShapeCollider_generic_collide_fst_numContacts (ext : Ext) (bv : BVT)
    (s : ShapeT) (o1 : BVHModelData) (tf1 : Tf) (o2 : GeomOp) (tf2 : Tf)
    (req : CollisionRequest) (st : WorldState) :
    (BVHShapeCollider_generic_collide ext bv s o1 tf1 o2 tf2 req st).1 =
      (BVHShapeCollider_generic_collide ext bv s o1 tf1 o2 tf2 req st).2.result.numContacts := by
  unfold BVHShapeCollider_generic_collide
  split
  · rfl
  · split <;> rfl

/-- Helper: the oriented mesh-mesh collider returns the contact count of the
result it leaves behind, on every path. -/
lemma orientedMeshCollide_fst_numContacts (ext : Ext) (node : MeshNodeT)
    (o1 : BVHModelData) (tf1 : Tf) (o2 : BVHModelData) (tf2 : Tf)
    (req : CollisionRequest) (st : WorldState) :
    (orientedMeshCollide ext node o1 tf1 o2 tf2 req st).1 =
      (orientedMeshCollide ext node o1 tf1 o2 tf2 req st).2.result.numContacts := by
  unfold orientedMeshCollide
  split <;> rfl

/-- Helper: the generic mesh-mesh collider returns the contact count of the
result it leaves behind, on every path. -/
lemma BVHCollideImpl_generic_run_fst_numContacts (ext : Ext) (bv : BVT)
    (o1 : BVHModelData) (tf1 : Tf) (o2 : BVHModelData) (tf2 : Tf)
    (req : CollisionRequest) (st : WorldState) :
    (BVHCollideImpl_generic_run ext bv o1 tf1 o2 tf2 req st).1 =
      (BVHCollideImpl_generic_run ext bv o1 tf1 o2 tf2 req st).2.result.numContacts := by
  unfold BVHCollideImpl_generic_run
  split <;> rfl

/-- Claim C3: each of the eight collision functions stored in the dispatch
matrix returns, on every execution path (the early-satisfied path included),
exactly `result.numContacts()` computed on the result object it leaves
behind.  Quantified over every behaviour of the external traversal driver. -/
theorem C3_returns_numContacts :
    (∀ (ext : Ext) (s1 s2 : ShapeT) (o1 : GeomOp) (tf1 : Tf) (o2 : GeomOp)
        (tf2 : Tf) (req : CollisionRequest) (st : WorldState),
      (ShapeShapeCollide ext s1 s2 o1 tf1 o2 tf2 req st).1 =
        (ShapeShapeCollide ext s1 s2 o1 tf1 o2 tf2 req st).2.result.numContacts) ∧
    (∀ (ext : Ext) (bv : BVT) (s : ShapeT) (o1 : BVHModelData) (tf1 : Tf)
        (o2 : GeomOp) (tf2 : Tf) (req : CollisionRequest) (st : WorldState),
      (BVHShapeCollider_collide ext bv s o1 tf1 o2 tf2 req st).1 =
        (BVHShapeCollider_collide ext bv s o1 tf1 o2 tf2 req st).2.result.numContacts) ∧
    (∀ (ext : Ext) (bv : BVT) (o1 : BVHModelData) (tf1 : Tf)
        (o2 : BVHModelData) (tf2 : Tf) (req : CollisionRequest) (st : WorldState),
      (BVHCollide ext bv o1 tf1 o2 tf2 req st).1 =
        (BVHCollide ext bv o1 tf1 o2 tf2 req st).2.result.numContacts) ∧
    (∀ (ext : Ext) (s : ShapeT) (o1 : GeomId) (tf1 : Tf) (o2 : GeomOp)
        (tf2 : Tf) (req : CollisionRequest) (st : WorldState),
      (OcTreeShapeCollide ext s o1 tf1 o2 tf2 req st).1 =
        (OcTreeShapeCollide ext s o1 tf1 o2 tf2 req st).2.result.numContacts) ∧
    (∀ (ext : Ext) (s : ShapeT) (o1 : GeomOp) (tf1 : Tf) (o2 : GeomId)
        (tf2 : Tf) (req : CollisionRequest) (st : WorldState),
      (ShapeOcTreeCollide ext s o1 tf1 o2 tf2 req st).1 =
        (ShapeOcTreeCollide ext s o1 tf1 o2 tf2 req st).2.result.numContacts) ∧
    (∀ (ext : Ext) (o1 : GeomId) (tf1 : Tf) (o2 : GeomId) (tf2 : Tf)
        (req : CollisionRequest) (st : WorldState),
      (OcTreeCollide ext o1 tf1 o2 tf2 req st).1 =
        (OcTreeCollide ext o1 tf1 o2 tf2 req st).2.result.numContacts) ∧
    (∀ (ext : Ext) (bv : BVT) (o1 : GeomId) (tf1 : Tf) (o2 : BVHModelData)
        (tf2 : Tf) (req : CollisionRequest) (st : WorldState),
      (OcTreeBVHCollide ext bv o1 tf1 o2 tf2 req st).1 =
        (OcTreeBVHCollide ext bv o1 tf1 o2 tf2 req st).2.result.numContacts) ∧
    (∀ (ext : Ext) (bv : BVT) (o1 : BVHModelData) (tf1 : Tf) (o2 : GeomId)
        (tf2 : Tf) (req : CollisionRequest) (st : WorldState),
      (BVHOcTreeCollide ext bv o1 tf1 o2 tf2 req st).1 =
        (BVHOcTreeCollide ext bv o1 tf1 o2 tf2 req st).2.result.numContacts) := by
  refine ⟨?_, ?_, ?_, ?_, ?_, ?_, ?_, ?_⟩
  · intro ext s1 s2 o1 tf1 o2 tf2 req st
    unfold ShapeShapeCollide
    split <;> rfl
  · intro ext bv s o1 tf1 o2 tf2 req st
    cases bv
    case OBB =>
      exact orientedBVHShapeCollide_fst_numContacts ext .orientedOBB .OBB s
        o1 tf1 o2 tf2 req st
    case RSS =>
      exact orientedBVHShapeCollide_fst_numContacts ext .orientedRSS .RSS s
        o1 tf1 o2 tf2 req st
    case kIOS =>
      exact orientedBVHShapeCollide_fst_numContacts ext .orientedkIOS .kIOS s
        o1 tf1 o2 tf2 req st
    case OBBRSS =>
      exact orientedBVHShapeCollide_fst_numContacts ext .orientedOBBRSS
        .OBBRSS s o1 tf1 o2 tf2 req st
    case AABB =>
      exact BVHShapeCollider_generic_collide_fst_numContacts ext .AABB s o1
        tf1 o2 tf2 req st
    case KDOP16 =>
      exact BVHShapeCollider_generic_collide_fst_numContacts ext .KDOP16 s o1
        tf1 o2 tf2 req st
    case KDOP18 =>
      exact BVHShapeCollider_generic_collide_fst_numContacts ext .KDOP18 s o1
        tf1 o2 tf2 req st
    case KDOP24 =>
      exact BVHShapeCollider_generic_collide_fst_numContacts ext .KDOP24 s o1
        tf1 o2 tf2 req st
  · intro ext bv o1 tf1 o2 tf2 req st
    cases bv
    case OBB =>
      exact orientedMeshCollide_fst_numContacts ext .orientedOBB o1 tf1 o2
        tf2 req st
    case OBBRSS =>
      exact orientedMeshCollide_fst_numContacts ext .orientedOBBRSS o1 tf1 o2
        tf2 req st
    case kIOS =>
      exact orientedMeshCollide_fst_numContacts ext .orientedkIOS o1 tf1 o2
        tf2 req st
    case AABB =>
      exact BVHCollideImpl_generic_run_fst_numContacts ext .AABB o1 tf1 o2
        tf2 req st
    case RSS =>
      exact BVHCollideImpl_generic_run_fst_numContacts ext .RSS o1 tf1 o2
        tf2 req st
    case KDOP16 =>
      exact BVHCollideImpl_generic_run_fst_numContacts ext .KDOP16 o1 tf1 o2
        tf2 req st
    case KDOP18 =>
      exact BVHCollideImpl_generic_run_fst_numContacts ext .KDOP18 o1 tf1 o2
        tf2 req st
    case KDOP24 =>
      exact BVHCollideImpl_generic_run_fst_numContacts ext .KDOP24 o1 tf1 o2
        tf2 req st
  · intro ext s o1 tf1 o2 tf2 req st
    unfold OcTreeShapeCollide
    split <;> rfl
  · intro ext s o1 tf1 o2 tf2 req st
    unfold ShapeOcTreeCollide
    split <;> rfl
  · intro ext o1 tf1 o2 tf2 req st
    unfold OcTreeCollide
    split <;> rfl
  · intro ext bv o1 tf1 o2 tf2 req st
    unfold OcTreeBVHCollide
    split
    · rfl
    · split <;> rfl
  · intro ext bv o1 tf1 o2 tf2 req st
    unfold BVHOcTreeCollide
    split
    · rfl
    · split <;> rfl

end fcl

namespace fcl

/-- Helper: early return of the oriented mesh-shape collider on a satisfied
request. -/
lemma orientedBVHShapeCollide_early (ext : Ext) (node : MeshShapeNodeT)
    (bv : BVT) (s : ShapeT) (o1 : BVHModelData) (tf1 : Tf) (o2 : GeomOp)
    (tf2 : Tf) (req : CollisionRequest) (st : WorldState)
    (h : ext.isSatisfied req st.result = true) :
    orientedBVHShapeCollide ext node bv s o1 tf1 o2 tf2 req st =
      (st.result.numContacts, st) := by
  unfold orientedBVHShapeCollide
  simp [h]

/-- Helper: early return of the generic mesh-shape collider on a satisfied
request. -/
lemma BVHShapeCollider_generic_collide_early (ext : Ext) (bv : BVT)
    (s : ShapeT) (o1 : BVHModelData) (tf1 : Tf) (o2 : GeomOp) (tf2 : Tf)
    (req : CollisionRequest) (st : WorldState)
    (h : ext.isSatisfied req st.result = true) :
    BVHShapeCollider_generic_collide ext bv s o1 tf1 o2 tf2 req st =
      (st.result.numContacts, st) := by
  unfold BVHShapeCollider_generic_collide
  simp [h]

/-- Helper: early return of the oriented mesh-mesh collider on a satisfied
request. -/
lemma orientedMeshCollide_early (ext : Ext) (node : MeshNodeT)
    (o1 : BVHModelData) (tf1 : Tf) (o2 : BVHModelData) (tf2 : Tf)
    (req : CollisionRequest) (st : WorldState)
    (h : ext.isSatisfied req st.result = true) :
    orientedMeshCollide ext node o1 tf1 o2 tf2 req st =
      (st.result.numContacts, st) := by
  unfold orientedMeshCollide
  simp [h]

/-- Helper: early return of the generic mesh-mesh collider on a satisfied
request. -/
lemma BVHCollideImpl_generic_run_early (ext : Ext) (bv : BVT)
    (o1 : BVHModelData) (tf1 : Tf) (o2 : BVHModelData) (tf2 : Tf)
    (req : CollisionRequest) (st : WorldState)
    (h : ext.isSatisfied req st.result = true) :
    BVHCollideImpl_generic_run ext bv o1 tf1 o2 tf2 req st =
      (st.result.numContacts, st) := by
  unfold BVHCollideImpl_generic_run
  simp [h]

/-- Claim C10: every dispatch-matrix collision function first tests
`request.isSatisfied(result)`; when that test is true on entry it returns
`result.numContacts()` immediately and the whole mutable state — result,
solver, copy counter — is left exactly as it was, for every behaviour of the
external traversal. -/
theorem C10_early_return :
    (∀ (ext : Ext) (s1 s2 : ShapeT) (o1 : GeomOp) (tf1 : Tf) (o2 : GeomOp)
        (tf2 : Tf) (req : CollisionRequest) (st : WorldState),
      ext.isSatisfied req st.result = true →
      ShapeShapeCollide ext s1 s2 o1 tf1 o2 tf2 req st =
        (st.result.numContacts, st)) ∧
    (∀ (ext : Ext) (bv : BVT) (s : ShapeT) (o1 : BVHModelData) (tf1 : Tf)
        (o2 : GeomOp) (tf2 : Tf) (req : CollisionRequest) (st : WorldState),
      ext.isSatisfied req st.result = true →
      BVHShapeCollider_collide ext bv s o1 tf1 o2 tf2 req st =
        (st.result.numContacts, st)) ∧
    (∀ (ext : Ext) (bv : BVT) (o1 : BVHModelData) (tf1 : Tf)
        (o2 : BVHModelData) (tf2 : Tf) (req : CollisionRequest)
        (st : WorldState),
      ext.isSatisfied req st.result = true →
      BVHCollide ext bv o1 tf1 o2 tf2 req st = (st.result.numContacts, st)) ∧
    (∀ (ext : Ext) (s : ShapeT) (o1 : GeomId) (tf1 : Tf) (o2 : GeomOp)
        (tf2 : Tf) (req : CollisionRequest) (st : WorldState),
      ext.isSatisfied req st.result = true →
      OcTreeShapeCollide ext s o1 tf1 o2 tf2 req st =
        (st.result.numContacts, st)) ∧
    (∀ (ext : Ext) (s : ShapeT) (o1 : GeomOp) (tf1 : Tf) (o2 : GeomId)
        (tf2 : Tf) (req : CollisionRequest) (st : WorldState),
      ext.isSatisfied req st.result = true →
      ShapeOcTreeCollide ext s o1 tf1 o2 tf2 req st =
        (st.result.numContacts, st)) ∧
    (∀ (ext : Ext) (o1 : GeomId) (tf1 : Tf) (o2 : GeomId) (tf2 : Tf)
        (req : CollisionRequest) (st : WorldState),
      ext.isSatisfied req st.result = true →
      OcTreeCollide ext o1 tf1 o2 tf2 req st = (st.result.numContacts, st)) ∧
    (∀ (ext : Ext) (bv : BVT) (o1 : GeomId) (tf1 : Tf) (o2 : BVHModelData)
        (tf2 : Tf) (req : CollisionRequest) (st : WorldState),
      ext.isSatisfied req st.result = true →
      OcTreeBVHCollide ext bv o1 tf1 o2 tf2 req st =
        (st.result.numContacts, st)) ∧
    (∀ (ext : Ext) (bv : BVT) (o1 : BVHModelData) (tf1 : Tf) (o2 : GeomId)
        (tf2 : Tf) (req : CollisionRequest) (st : WorldState),
      ext.isSatisfied req st.result = true →
      BVHOcTreeCollide ext bv o1 tf1 o2 tf2 req st =
        (st.result.numContacts, st)) := by
  refine ⟨?_, ?_, ?_, ?_, ?_, ?_, ?_, ?_⟩
  · intro ext s1 s2 o1 tf1 o2 tf2 req st h
    unfold ShapeShapeCollide
    simp [h]
  · intro ext bv s o1 tf1 o2 tf2 req st h
    cases bv
    case OBB =>
      exact orientedBVHShapeCollide_early ext .orientedOBB .OBB s o1 tf1 o2
        tf2 req st h
    case RSS =>
      exact orientedBVHShapeCollide_early ext .orientedRSS .RSS s o1 tf1 o2
        tf2 req st h
    case kIOS =>
      exact orientedBVHShapeCollide_early ext .orientedkIOS .kIOS s o1 tf1 o2
        tf2 req st h
    case OBBRSS =>
      exact orientedBVHShapeCollide_early ext .orientedOBBRSS .OBBRSS s o1
        tf1 o2 tf2 req st h
    case AABB =>
      exact BVHShapeCollider_generic_collide_early ext .AABB s o1 tf1 o2 tf2
        req st h
    case KDOP16 =>
      exact BVHShapeCollider_generic_collide_early ext .KDOP16 s o1 tf1 o2
        tf2 req st h
    case KDOP18 =>
      exact BVHShapeCollider_generic_collide_early ext .KDOP18 s o1 tf1 o2
        tf2 req st h
    case KDOP24 =>
      exact BVHShapeCollider_generic_collide_early ext .KDOP24 s o1 tf1 o2
        tf2 req st h
  · intro ext bv o1 tf1 o2 tf2 req st h
    cases bv
    case OBB => exact orientedMeshCollide_early ext .orientedOBB o1 tf1 o2 tf2 req st h
    case OBBRSS => exact orientedMeshCollide_early ext .orientedOBBRSS o1 tf1 o2 tf2 req st h
    case kIOS => exact orientedMeshCollide_early ext .orientedkIOS o1 tf1 o2 tf2 req st h
    case AABB => exact BVHCollideImpl_generic_run_early ext .AABB o1 tf1 o2 tf2 req st h
    case RSS => exact BVHCollideImpl_generic_run_early ext .RSS o1 tf1 o2 tf2 req st h
    case KDOP16 => exact BVHCollideImpl_generic_run_early ext .KDOP16 o1 tf1 o2 tf2 req st h
    case KDOP18 => exact BVHCollideImpl_generic_run_early ext .KDOP18 o1 tf1 o2 tf2 req st h
    case KDOP24 => exact BVHCollideImpl_generic_run_early ext .KDOP24 o1 tf1 o2 tf2 req st h
  · intro ext s o1 tf1 o2 tf2 req st h
    unfold OcTreeShapeCollide
    simp [h]
  · intro ext s o1 tf1 o2 tf2 req st h
    unfold ShapeOcTreeCollide
    simp [h]
  · intro ext o1 tf1 o2 tf2 req st h
    unfold OcTreeCollide
    simp [h]
  · intro ext bv o1 tf1 o2 tf2 req st h
    unfold OcTreeBVHCollide
    simp [h]
  · intro ext bv o1 tf1 o2 tf2 req st h
    unfold BVHOcTreeCollide
    simp [h]

/-- Witness for C10: the early return evaluated at a concrete world whose
satisfaction predicate fires, for each of the eight functions. -/
theorem C10_early_return_witness :
    ShapeShapeCollide extAlwaysSat .Box .Sphere (.ofGeom 0) 0 (.ofGeom 1) 0
        reqW stW = (stW.result.numContacts, stW) ∧
    BVHShapeCollider_collide extAlwaysSat .OBB .Box mW 0 (.ofGeom 1) 0 reqW
        stW = (stW.result.numContacts, stW) ∧
    BVHCollide extAlwaysSat .AABB mW 0 mW 0 reqW stW =
      (stW.result.numContacts, stW) ∧
    OcTreeShapeCollide extAlwaysSat .Box 0 0 (.ofGeom 1) 0 reqW stW =
      (stW.result.numContacts, stW) ∧
    ShapeOcTreeCollide extAlwaysSat .Box (.ofGeom 0) 0 1 0 reqW stW =
      (stW.result.numContacts, stW) ∧
    OcTreeCollide extAlwaysSat 0 0 1 0 reqW stW =
      (stW.result.numContacts, stW) ∧
    OcTreeBVHCollide extAlwaysSat .AABB 0 0 mW 0 reqW stW =
      (stW.result.numContacts, stW) ∧
    BVHOcTreeCollide extAlwaysSat .AABB mW 0 1 0 reqW stW =
      (stW.result.numContacts, stW) :=
  ⟨C10_early_return.1 extAlwaysSat .Box .Sphere (.ofGeom 0) 0 (.ofGeom 1) 0
      reqW stW rfl,
   C10_early_return.2.1 extAlwaysSat .OBB .Box mW 0 (.ofGeom 1) 0 reqW stW rfl,
   C10_early_return.2.2.1 extAlwaysSat .AABB mW 0 mW 0 reqW stW rfl,
   C10_early_return.2.2.2.1 extAlwaysSat .Box 0 0 (.ofGeom 1) 0 reqW stW rfl,
   C10_early_return.2.2.2.2.1 extAlwaysSat .Box (.ofGeom 0) 0 1 0 reqW stW rfl,
   C10_early_return.2.2.2.2.2.1 extAlwaysSat 0 0 1 0 reqW stW rfl,
   C10_early_return.2.2.2.2.2.2.1 extAlwaysSat .AABB 0 0 mW 0 reqW stW rfl,
   C10_early_return.2.2.2.2.2.2.2 extAlwaysSat .AABB mW 0 1 0 reqW stW rfl⟩

end fcl

namespace fcl

/-- Claim C9: when not early-returned, `ShapeShapeCollide` switches the
solver's cached-guess mode on in both branches of the
`request.enable_cached_gjk_guess` test; the guess handed to the traversal is
seeded from `request.cached_gjk_guess` exactly when the flag is set (otherwise
the solver's previous guess is kept), and `result.cached_gjk_guess` is written
back from the solver exactly when the flag is set. -/
theorem C9_cached_guess :
    ∀ (ext : Ext) (s1 s2 : ShapeT) (o1 : GeomOp) (tf1 : Tf) (o2 : GeomOp)
      (tf2 : Tf) (req : CollisionRequest) (st : WorldState),
      ext.isSatisfied req st.result = false →
      ((ShapeShapeCollide ext s1 s2 o1 tf1 o2 tf2 req st).2.solver.cachedGuessEnabled
        = true) ∧
      (req.enable_cached_gjk_guess = true →
        (ShapeShapeCollide ext s1 s2 o1 tf1 o2 tf2 req st).2.solver.cachedGuess =
          (ext.traverseShapeShape s1 s2 o1 tf1 o2 tf2 req st.result
            req.cached_gjk_guess).2 ∧
        (ShapeShapeCollide ext s1 s2 o1 tf1 o2 tf2 req st).2.result.cached_gjk_guess =
          (ShapeShapeCollide ext s1 s2 o1 tf1 o2 tf2 req st).2.solver.cachedGuess) ∧
      (req.enable_cached_gjk_guess = false →
        (ShapeShapeCollide ext s1 s2 o1 tf1 o2 tf2 req st).2.solver.cachedGuess =
          (ext.traverseShapeShape s1 s2 o1 tf1 o2 tf2 req st.result
            st.solver.cachedGuess).2 ∧
        (ShapeShapeCollide ext s1 s2 o1 tf1 o2 tf2 req st).2.result.cached_gjk_guess =
          (ext.traverseShapeShape s1 s2 o1 tf1 o2 tf2 req st.result
            st.solver.cachedGuess).1.cached_gjk_guess) := by
  intro ext s1 s2 o1 tf1 o2 tf2 req st h
  unfold ShapeShapeCollide
  cases hg : req.enable_cached_gjk_guess <;> simp [h, hg]

/-- Witness for C9: evaluated at a concrete never-satisfied world, once with
the cached-guess flag set and once without. -/
theorem C9_cached_guess_witness :
    ((ShapeShapeCollide extNeverSat .Box .Sphere (.ofGeom 0) 0 (.ofGeom 1) 0
        reqGuessW stW).2.solver.cachedGuessEnabled = true) ∧
    ((ShapeShapeCollide extNeverSat .Box .Sphere (.ofGeom 0) 0 (.ofGeom 1) 0
        reqGuessW stW).2.solver.cachedGuess =
      (extNeverSat.traverseShapeShape .Box .Sphere (.ofGeom 0) 0 (.ofGeom 1) 0
        reqGuessW stW.result reqGuessW.cached_gjk_guess).2) ∧
    ((ShapeShapeCollide extNeverSat .Box .Sphere (.ofGeom 0) 0 (.ofGeom 1) 0
        reqW stW).2.result.cached_gjk_guess =
      (extNeverSat.traverseShapeShape .Box .Sphere (.ofGeom 0) 0 (.ofGeom 1) 0
        reqW stW.result stW.solver.cachedGuess).1.cached_gjk_guess) :=
  ⟨(C9_cached_guess extNeverSat .Box .Sphere (.ofGeom 0) 0 (.ofGeom 1) 0
      reqGuessW stW rfl).1,
   ((C9_cached_guess extNeverSat .Box .Sphere (.ofGeom 0) 0 (.ofGeom 1) 0
      reqGuessW stW rfl).2.1 rfl).1,
   ((C9_cached_guess extNeverSat .Box .Sphere (.ofGeom 0) 0 (.ofGeom 1) 0
      reqW stW rfl).2.2 rfl).2⟩

end fcl

namespace fcl

/-- Helper: a shape-shape dispatch whose request caps contacts at the count
already accumulated leaves the contact count unchanged. -/
lemma ShapeShapeCollide_no_new_contacts (ext : Ext)
    (H : HonoursContactCapSS ext) (s1 s2 : ShapeT) (o1 : GeomOp) (tf1 : Tf)
    (o2 : GeomOp) (tf2 : Tf) (req : CollisionRequest) (st : WorldState)
    (h : req.num_max_contacts = st.result.numContacts) :
    (ShapeShapeCollide ext s1 s2 o1 tf1 o2 tf2 req st).2.result.numContacts =
      st.result.numContacts := by
  unfold ShapeShapeCollide
  split
  · rfl
  · cases hg : req.enable_cached_gjk_guess <;>
      simp only [hg, Bool.false_eq_true, if_false, if_true,
        CollisionResult.numContacts]
    · have hb := H s1 s2 o1 tf1 o2 tf2 req st.result st.solver.cachedGuess
      rw [h, Nat.max_self] at hb
      exact le_antisymm hb.2 hb.1
    · have hb := H s1 s2 o1 tf1 o2 tf2 req st.result req.cached_gjk_guess
      rw [h, Nat.max_self] at hb
      exact le_antisymm hb.2 hb.1

/-- Helper: an octree-shape dispatch whose request caps contacts at the count
already accumulated leaves the contact count unchanged. -/
lemma OcTreeShapeCollide_no_new_contacts (ext : Ext)
    (H : HonoursContactCapOTS ext) (s : ShapeT) (o1 : GeomId) (tf1 : Tf)
    (o2 : GeomOp) (tf2 : Tf) (req : CollisionRequest) (st : WorldState)
    (h : req.num_max_contacts = st.result.numContacts) :
    (OcTreeShapeCollide ext s o1 tf1 o2 tf2 req st).2.result.numContacts =
      st.result.numContacts := by
  unfold OcTreeShapeCollide
  split
  · rfl
  · have hb := H s o1 tf1 o2 tf2 req st.result
    rw [h, Nat.max_self] at hb
    exact le_antisymm hb.2 hb.1

/-- Helper: a shape-octree dispatch whose request caps contacts at the count
already accumulated leaves the contact count unchanged. -/
lemma ShapeOcTreeCollide_no_new_contacts (ext : Ext)
    (H : HonoursContactCapSOT ext) (s : ShapeT) (o1 : GeomOp) (tf1 : Tf)
    (o2 : GeomId) (tf2 : Tf) (req : CollisionRequest) (st : WorldState)
    (h : req.num_max_contacts = st.result.numContacts) :
    (ShapeOcTreeCollide ext s o1 tf1 o2 tf2 req st).2.result.numContacts =
      st.result.numContacts := by
  unfold ShapeOcTreeCollide
  split
  · rfl
  · have hb := H s o1 tf1 o2 tf2 req st.result
    rw [h, Nat.max_self] at hb
    exact le_antisymm hb.2 hb.1

end fcl

namespace fcl

/-- Helper: unfolding of the generic mesh-shape collider on the
approximate-cost branch — a no-cost first traversal on the copied model, then
the box-based shape-shape cost pass. -/
lemma BVHShapeCollider_generic_approx (ext : Ext) (bv : BVT) (s : ShapeT)
    (o1 : BVHModelData) (tf1 : Tf) (o2 : GeomOp) (tf2 : Tf)
    (req : CollisionRequest) (st : WorldState)
    (hc : req.enable_cost = true) (ha : req.use_approximate_cost = true)
    (hs : ext.isSatisfied req st.result = false) :
    BVHShapeCollider_generic_collide ext bv s o1 tf1 o2 tf2 req st =
      (let r1 := ext.traverseMeshShape (.generic bv) s o1 tf1 o2 tf2
         { req with enable_cost := false } st.result
       let boxp := ext.constructBox o1.rootBV tf1
       let box : Box :=
         { boxp.1 with
           cost_density := o1.cost_density
           threshold_occupied := o1.threshold_occupied
           threshold_free := o1.threshold_free }
       let st2 : WorldState :=
         { st with result := r1, modelCopies := st.modelCopies + 1 }
       let st3 := (ShapeShapeCollide ext .Box s (.ofBox box) boxp.2 o2 tf2
         (mkRequest5 r1.numContacts false req.num_max_cost_sources true false)
         st2).2
       (st3.result.numContacts, st3)) := by
  unfold BVHShapeCollider_generic_collide
  rw [hs, hc, ha]
  rfl

/-- Helper: unfolding of the oriented mesh-shape collider on the
approximate-cost branch — as the generic one but with the oriented traversal
node and no model copy. -/
lemma orientedBVHShapeCollide_approx (ext : Ext) (node : MeshShapeNodeT)
    (bv : BVT) (s : ShapeT) (o1 : BVHModelData) (tf1 : Tf) (o2 : GeomOp)
    (tf2 : Tf) (req : CollisionRequest) (st : WorldState)
    (hc : req.enable_cost = true) (ha : req.use_approximate_cost = true)
    (hs : ext.isSatisfied req st.result = false) :
    orientedBVHShapeCollide ext node bv s o1 tf1 o2 tf2 req st =
      (let r1 := ext.traverseMeshShape node s o1 tf1 o2 tf2
         { req with enable_cost := false } st.result
       let boxp := ext.constructBox o1.rootBV tf1
       let box : Box :=
         { boxp.1 with
           cost_density := o1.cost_density
           threshold_occupied := o1.threshold_occupied
           threshold_free := o1.threshold_free }
       let st2 : WorldState := { st with result := r1 }
       let st3 := (ShapeShapeCollide ext .Box s (.ofBox box) boxp.2 o2 tf2
         (mkRequest5 r1.numContacts false req.num_max_cost_sources true false)
         st2).2
       (st3.result.numContacts, st3)) := by
  unfold orientedBVHShapeCollide
  rw [hs, hc, ha]
  rfl

/-- Helper: unfolding of `OcTreeBVHCollide` on the approximate-cost branch —
a no-cost octree-mesh traversal, then the box-based octree-shape cost pass,
with the box built from the mesh operand `o2`. -/
lemma OcTreeBVHCollide_approx (ext : Ext) (bv : BVT) (o1 : GeomId) (tf1 : Tf)
    (o2 : BVHModelData) (tf2 : Tf) (req : CollisionRequest) (st : WorldState)
    (hc : req.enable_cost = true) (ha : req.use_approximate_cost = true)
    (hs : ext.isSatisfied req st.result = false) :
    OcTreeBVHCollide ext bv o1 tf1 o2 tf2 req st =
      (let r1 := ext.traverseOcTreeMesh bv o1 tf1 o2 tf2
         { req with enable_cost := false } st.result
       let boxp := ext.constructBox o2.rootBV tf2
       let box : Box :=
         { boxp.1 with
           cost_density := o2.cost_density
           threshold_occupied := o2.threshold_occupied
           threshold_free := o2.threshold_free }
       let st2 : WorldState := { st with result := r1 }
       let st3 := (OcTreeShapeCollide ext .Box o1 tf1 (.ofBox box) boxp.2
         (mkRequest5 r1.numContacts false req.num_max_cost_sources true false)
         st2).2
       (st3.result.numContacts, st3)) := by
  unfold OcTreeBVHCollide
  rw [hs, hc, ha]
  rfl

/-- Helper: unfolding of `BVHOcTreeCollide` on the approximate-cost branch —
a no-cost mesh-octree traversal, then the box-based shape-octree cost pass,
with the box built from the mesh operand `o1`. -/
lemma BVHOcTreeCollide_approx (ext : Ext) (bv : BVT) (o1 : BVHModelData)
    (tf1 : Tf) (o2 : GeomId) (tf2 : Tf) (req : CollisionRequest)
    (st : WorldState)
    (hc : req.enable_cost = true) (ha : req.use_approximate_cost = true)
    (hs : ext.isSatisfied req st.result = false) :
    BVHOcTreeCollide ext bv o1 tf1 o2 tf2 req st =
      (let r1 := ext.traverseMeshOcTree bv o1 tf1 o2 tf2
         { req with enable_cost := false } st.result
       let boxp := ext.constructBox o1.rootBV tf1
       let box : Box :=
         { boxp.1 with
           cost_density := o1.cost_density
           threshold_occupied := o1.threshold_occupied
           threshold_free := o1.threshold_free }
       let st2 : WorldState := { st with result := r1 }
       let st3 := (ShapeOcTreeCollide ext .Box (.ofBox box) boxp.2 o2 tf2
         (mkRequest5 r1.numContacts false req.num_max_cost_sources true false)
         st2).2
       (st3.result.numContacts, st3)) := by
  unfold BVHOcTreeCollide
  rw [hs, hc, ha]
  rfl

end fcl

namespace fcl

/-- Helper: the trivial world's identity shape-shape traversal honours the
contact cap. -/
lemma extNeverSat_capSS : HonoursContactCapSS extNeverSat := by
  intro s1 s2 o1 tf1 o2 tf2 req r g
  exact ⟨Nat.le_refl _, Nat.le_max_right _ _⟩

/-- Helper: the trivial world's identity octree-shape traversal honours the
contact cap. -/
lemma extNeverSat_capOTS : HonoursContactCapOTS extNeverSat := by
  intro s o1 tf1 o2 tf2 req r
  exact ⟨Nat.le_refl _, Nat.le_max_right _ _⟩

/-- Helper: the trivial world's identity shape-octree traversal honours the
contact cap. -/
lemma extNeverSat_capSOT : HonoursContactCapSOT extNeverSat := by
  intro s o1 tf1 o2 tf2 req r
  exact ⟨Nat.le_refl _, Nat.le_max_right _ _⟩

/-- Claim C4: each mesh-vs-shape and mesh-vs-octree collision function, on a
request with `enable_cost` and `use_approximate_cost` both set (and not early
returned), first traverses under a copy of the request with `enable_cost`
cleared, then builds a `Box` from the mesh's root BV `getBV(0).bv` and the
mesh's world transform via `constructBox`, copies `cost_density`,
`threshold_occupied` and `threshold_free` from the mesh onto the box, and
dispatches a shape-shape (respectively octree-shape / shape-octree) call whose
request carries `num_max_contacts` equal to the contact count already
accumulated, `enable_contact = false` and `enable_cost = true`; provided the
traversals honour the contact cap, the second pass adds no contacts. -/
theorem C4_approximate_cost :
    (∀ (ext : Ext) (bv : BVT) (s : ShapeT) (o1 : BVHModelData) (tf1 : Tf)
        (o2 : GeomOp) (tf2 : Tf) (req : CollisionRequest) (st : WorldState),
      HonoursContactCapSS ext →
      req.enable_cost = true → req.use_approximate_cost = true →
      ext.isSatisfied req st.result = false →
      (BVHShapeCollider_generic_collide ext bv s o1 tf1 o2 tf2 req st =
        (let r1 := ext.traverseMeshShape (.generic bv) s o1 tf1 o2 tf2
           { req with enable_cost := false } st.result
         let boxp := ext.constructBox o1.rootBV tf1
         let box : Box :=
           { boxp.1 with
             cost_density := o1.cost_density
             threshold_occupied := o1.threshold_occupied
             threshold_free := o1.threshold_free }
         let st2 : WorldState :=
           { st with result := r1, modelCopies := st.modelCopies + 1 }
         let st3 := (ShapeShapeCollide ext .Box s (.ofBox box) boxp.2 o2 tf2
           (mkRequest5 r1.numContacts false req.num_max_cost_sources true
             false) st2).2
         (st3.result.numContacts, st3)) ∧
       (BVHShapeCollider_generic_collide ext bv s o1 tf1 o2 tf2 req
           st).2.result.numContacts =
         (ext.traverseMeshShape (.generic bv) s o1 tf1 o2 tf2
           { req with enable_cost := false } st.result).numContacts)) ∧
    (∀ (ext : Ext) (node : MeshShapeNodeT) (bv : BVT) (s : ShapeT)
        (o1 : BVHModelData) (tf1 : Tf) (o2 : GeomOp) (tf2 : Tf)
        (req : CollisionRequest) (st : WorldState),
      HonoursContactCapSS ext →
      req.enable_cost = true → req.use_approximate_cost = true →
      ext.isSatisfied req st.result = false →
      (orientedBVHShapeCollide ext node bv s o1 tf1 o2 tf2 req st =
        (let r1 := ext.traverseMeshShape node s o1 tf1 o2 tf2
           { req with enable_cost := false } st.result
         let boxp := ext.constructBox o1.rootBV tf1
         let box : Box :=
           { boxp.1 with
             cost_density := o1.cost_density
             threshold_occupied := o1.threshold_occupied
             threshold_free := o1.threshold_free }
         let st2 : WorldState := { st with result := r1 }
         let st3 := (ShapeShapeCollide ext .Box s (.ofBox box) boxp.2 o2 tf2
           (mkRequest5 r1.numContacts false req.num_max_cost_sources true
             false) st2).2
         (st3.result.numContacts, st3)) ∧
       (orientedBVHShapeCollide ext node bv s o1 tf1 o2 tf2 req
           st).2.result.numContacts =
         (ext.traverseMeshShape node s o1 tf1 o2 tf2
           { req with enable_cost := false } st.result).numContacts)) ∧
    (∀ (ext : Ext) (bv : BVT) (o1 : GeomId) (tf1 : Tf) (o2 : BVHModelData)
        (tf2 : Tf) (req : CollisionRequest) (st : WorldState),
      HonoursContactCapOTS ext →
      req.enable_cost = true → req.use_approximate_cost = true →
      ext.isSatisfied req st.result = false →
      (OcTreeBVHCollide ext bv o1 tf1 o2 tf2 req st =
        (let r1 := ext.traverseOcTreeMesh bv o1 tf1 o2 tf2
           { req with enable_cost := false } st.result
         let boxp := ext.constructBox o2.rootBV tf2
         let box : Box :=
           { boxp.1 with
             cost_density := o2.cost_density
             threshold_occupied := o2.threshold_occupied
             threshold_free := o2.threshold_free }
         let st2 : WorldState := { st with result := r1 }
         let st3 := (OcTreeShapeCollide ext .Box o1 tf1 (.ofBox box) boxp.2
           (mkRequest5 r1.numContacts false req.num_max_cost_sources true
             false) st2).2
         (st3.result.numContacts, st3)) ∧
       (OcTreeBVHCollide ext bv o1 tf1 o2 tf2 req st).2.result.numContacts =
         (ext.traverseOcTreeMesh bv o1 tf1 o2 tf2
           { req with enable_cost := false } st.result).numContacts)) ∧
    (∀ (ext : Ext) (bv : BVT) (o1 : BVHModelData) (tf1 : Tf) (o2 : GeomId)
        (tf2 : Tf) (req : CollisionRequest) (st : WorldState),
      HonoursContactCapSOT ext →
      req.enable_cost = true → req.use_approximate_cost = true →
      ext.isSatisfied req st.result = false →
      (BVHOcTreeCollide ext bv o1 tf1 o2 tf2 req st =
        (let r1 := ext.traverseMeshOcTree bv o1 tf1 o2 tf2
           { req with enable_cost := false } st.result
         let boxp := ext.constructBox o1.rootBV tf1
         let box : Box :=
           { boxp.1 with
             cost_density := o1.cost_density
             threshold_occupied := o1.threshold_occupied
             threshold_free := o1.threshold_free }
         let st2 : WorldState := { st with result := r1 }
         let st3 := (ShapeOcTreeCollide ext .Box (.ofBox box) boxp.2 o2 tf2
           (mkRequest5 r1.numContacts false req.num_max_cost_sources true
             false) st2).2
         (st3.result.numContacts, st3)) ∧
       (BVHOcTreeCollide ext bv o1 tf1 o2 tf2 req st).2.result.numContacts =
         (ext.traverseMeshOcTree bv o1 tf1 o2 tf2
           { req with enable_cost := false } st.result).numContacts)) := by
  refine ⟨?_, ?_, ?_, ?_⟩
  · intro ext bv s o1 tf1 o2 tf2 req st Hcap hc ha hs
    have heq := BVHShapeCollider_generic_approx ext bv s o1 tf1 o2 tf2 req st
      hc ha hs
    refine ⟨heq, ?_⟩
    rw [heq]
    exact ShapeShapeCollide_no_new_contacts ext Hcap .Box s _ _ o2 tf2 _ _ rfl
  · intro ext node bv s o1 tf1 o2 tf2 req st Hcap hc ha hs
    have heq := orientedBVHShapeCollide_approx ext node bv s o1 tf1 o2 tf2
      req st hc ha hs
    refine ⟨heq, ?_⟩
    rw [heq]
    exact ShapeShapeCollide_no_new_contacts ext Hcap .Box s _ _ o2 tf2 _ _ rfl
  · intro ext bv o1 tf1 o2 tf2 req st Hcap hc ha hs
    have heq := OcTreeBVHCollide_approx ext bv o1 tf1 o2 tf2 req st hc ha hs
    refine ⟨heq, ?_⟩
    rw [heq]
    exact OcTreeShapeCollide_no_new_contacts ext Hcap .Box o1 tf1 _ _ _ _ rfl
  · intro ext bv o1 tf1 o2 tf2 req st Hcap hc ha hs
    have heq := BVHOcTreeCollide_approx ext bv o1 tf1 o2 tf2 req st hc ha hs
    refine ⟨heq, ?_⟩
    rw [heq]
    exact ShapeOcTreeCollide_no_new_contacts ext Hcap .Box _ _ o2 tf2 _ _ rfl

/-- Witness for C4: the second pass of the approximate-cost path adds no
contacts, evaluated at a concrete world with identity traversals and a
cost-requesting request. -/
theorem C4_approximate_cost_witness :
    (BVHShapeCollider_generic_collide extNeverSat .AABB .Sphere mW 0
        (.ofGeom 1) 0 reqCostW stW).2.result.numContacts =
      (extNeverSat.traverseMeshShape (.generic .AABB) .Sphere mW 0 (.ofGeom 1)
        0 { reqCostW with enable_cost := false } stW.result).numContacts ∧
    (orientedBVHShapeCollide extNeverSat .orientedOBB .OBB .Sphere mW 0
        (.ofGeom 1) 0 reqCostW stW).2.result.numContacts =
      (extNeverSat.traverseMeshShape .orientedOBB .Sphere mW 0 (.ofGeom 1) 0
        { reqCostW with enable_cost := false } stW.result).numContacts ∧
    (OcTreeBVHCollide extNeverSat .AABB 0 0 mW 0 reqCostW
        stW).2.result.numContacts =
      (extNeverSat.traverseOcTreeMesh .AABB 0 0 mW 0
        { reqCostW with enable_cost := false } stW.result).numContacts ∧
    (BVHOcTreeCollide extNeverSat .AABB mW 0 1 0 reqCostW
        stW).2.result.numContacts =
      (extNeverSat.traverseMeshOcTree .AABB mW 0 1 0
        { reqCostW with enable_cost := false } stW.result).numContacts :=
  ⟨(C4_approximate_cost.1 extNeverSat .AABB .Sphere mW 0 (.ofGeom 1) 0
      reqCostW stW extNeverSat_capSS rfl rfl rfl).2,
   (C4_approximate_cost.2.1 extNeverSat .orientedOBB .OBB .Sphere mW 0
      (.ofGeom 1) 0 reqCostW stW extNeverSat_capSS rfl rfl rfl).2,
   (C4_approximate_cost.2.2.1 extNeverSat .AABB 0 0 mW 0 reqCostW stW
      extNeverSat_capOTS rfl rfl rfl).2,
   (C4_approximate_cost.2.2.2 extNeverSat .AABB mW 0 1 0 reqCostW stW
      extNeverSat_capSOT rfl rfl rfl).2⟩

end fcl

namespace fcl

/-- Helper: `ShapeShapeCollide` never deep-copies a model. -/
lemma ShapeShapeCollide_modelCopies (ext : Ext) (s1 s2 : ShapeT)
    (o1 : GeomOp) (tf1 : Tf) (o2 : GeomOp) (tf2 : Tf)
    (req : CollisionRequest) (st : WorldState) :
    (ShapeShapeCollide ext s1 s2 o1 tf1 o2 tf2 req st).2.modelCopies =
      st.modelCopies := by
  unfold ShapeShapeCollide
  split <;> rfl

/-- Helper: `OcTreeShapeCollide` never deep-copies a model. -/
lemma OcTreeShapeCollide_modelCopies (ext : Ext) (s : ShapeT) (o1 : GeomId)
    (tf1 : Tf) (o2 : GeomOp) (tf2 : Tf) (req : CollisionRequest)
    (st : WorldState) :
    (OcTreeShapeCollide ext s o1 tf1 o2 tf2 req st).2.modelCopies =
      st.modelCopies := by
  unfold OcTreeShapeCollide
  split <;> rfl

/-- Helper: the oriented mesh-shape collider performs no model deep copy on
any path (it borrows the model, unlike the generic collider). -/
lemma orientedBVHShapeCollide_modelCopies (ext : Ext) (node : MeshShapeNodeT)
    (bv : BVT) (s : ShapeT) (o1 : BVHModelData) (tf1 : Tf) (o2 : GeomOp)
    (tf2 : Tf) (req : CollisionRequest) (st : WorldState) :
    (orientedBVHShapeCollide ext node bv s o1 tf1 o2 tf2 req st).2.modelCopies
      = st.modelCopies := by
  unfold orientedBVHShapeCollide
  split
  · rfl
  · split
    · exact ShapeShapeCollide_modelCopies ext .Box s _ _ o2 tf2 _ _
    · rfl

/-- Claim C5: every BVH-vs-shape cell of the matrix holds the
`BVHShapeCollider` for its BV and shape; for `OBB`, `RSS`, `kIOS` and
`OBBRSS` that collider is the oriented `details::orientedBVHShapeCollide`
with the corresponding oriented traversal node, which never copies the model,
while for `AABB` and the three `kDOP` variants it is the unspecialised
generic collider. -/
theorem C5_variant_selection :
    ∀ (bv : BVT) (s : ShapeT),
      collision_matrix (nodeOfBV bv) (nodeOfShape s) =
        CollisionFunc.BVHShapeColliderCollide bv s ∧
      (isOrientedBV bv = true →
        ∀ (ext : Ext) (o1 : BVHModelData) (tf1 : Tf) (o2 : GeomOp) (tf2 : Tf)
          (req : CollisionRequest) (st : WorldState),
          BVHShapeCollider_collide ext bv s o1 tf1 o2 tf2 req st =
            orientedBVHShapeCollide ext (meshShapeNodeOf bv) bv s o1 tf1 o2
              tf2 req st ∧
          (BVHShapeCollider_collide ext bv s o1 tf1 o2 tf2 req
              st).2.modelCopies = st.modelCopies) ∧
      (isOrientedBV bv = false →
        ∀ (ext : Ext) (o1 : BVHModelData) (tf1 : Tf) (o2 : GeomOp) (tf2 : Tf)
          (req : CollisionRequest) (st : WorldState),
          BVHShapeCollider_collide ext bv s o1 tf1 o2 tf2 req st =
            BVHShapeCollider_generic_collide ext bv s o1 tf1 o2 tf2 req st) := by
  have hmat : ∀ (bv : BVT) (s : ShapeT),
      collision_matrix (nodeOfBV bv) (nodeOfShape s) =
        CollisionFunc.BVHShapeColliderCollide bv s := by decide
  intro bv s
  refine ⟨hmat bv s, ?_, ?_⟩
  · intro hbv ext o1 tf1 o2 tf2 req st
    cases bv
    case OBB =>
      exact ⟨rfl, orientedBVHShapeCollide_modelCopies ext .orientedOBB .OBB s
        o1 tf1 o2 tf2 req st⟩
    case RSS =>
      exact ⟨rfl, orientedBVHShapeCollide_modelCopies ext .orientedRSS .RSS s
        o1 tf1 o2 tf2 req st⟩
    case kIOS =>
      exact ⟨rfl, orientedBVHShapeCollide_modelCopies ext .orientedkIOS .kIOS
        s o1 tf1 o2 tf2 req st⟩
    case OBBRSS =>
      exact ⟨rfl, orientedBVHShapeCollide_modelCopies ext .orientedOBBRSS
        .OBBRSS s o1 tf1 o2 tf2 req st⟩
    all_goals exact absurd hbv (by decide)
  · intro hbv ext o1 tf1 o2 tf2 req st
    cases bv
    case AABB => rfl
    case KDOP16 => rfl
    case KDOP18 => rfl
    case KDOP24 => rfl
    all_goals exact absurd hbv (by decide)

/-- Witness for C5: the `OBB` cell routes to the oriented collider without
copying, the `AABB` cell to the generic one, at concrete inputs. -/
theorem C5_variant_selection_witness :
    collision_matrix NodeType.BV_OBB NodeType.GEOM_BOX =
      CollisionFunc.BVHShapeColliderCollide BVT.OBB ShapeT.Box ∧
    BVHShapeCollider_collide extNeverSat .OBB .Box mW 0 (.ofGeom 1) 0 reqW stW
      = orientedBVHShapeCollide extNeverSat (meshShapeNodeOf .OBB) .OBB .Box
          mW 0 (.ofGeom 1) 0 reqW stW ∧
    (BVHShapeCollider_collide extNeverSat .OBB .Box mW 0 (.ofGeom 1) 0 reqW
        stW).2.modelCopies = stW.modelCopies ∧
    BVHShapeCollider_collide extNeverSat .AABB .Box mW 0 (.ofGeom 1) 0 reqW
        stW =
      BVHShapeCollider_generic_collide extNeverSat .AABB .Box mW 0 (.ofGeom 1)
        0 reqW stW :=
  ⟨(C5_variant_selection .OBB .Box).1,
   ((C5_variant_selection .OBB .Box).2.1 rfl extNeverSat mW 0 (.ofGeom 1) 0
      reqW stW).1,
   ((C5_variant_selection .OBB .Box).2.1 rfl extNeverSat mW 0 (.ofGeom 1) 0
      reqW stW).2,
   (C5_variant_selection .AABB .Box).2.2 rfl extNeverSat mW 0 (.ofGeom 1) 0
     reqW stW⟩

end fcl

namespace fcl

/-- Claim C7: when the model type set on the fitter is neither
`BVH_MODEL_TRIANGLES` nor `BVH_MODEL_POINTCLOUD`, `fit` returns the
default-constructed BV for every index array and count — whatever the vertex
and triangle data hold. -/
theorem C7_fit_unknown_type :
    ∀ (BV : Type) (ops : BVOps BV) (f : BVFitter) (idxs : Nat → Nat)
      (n : Nat),
      f.type ≠ BVHModelType.BVH_MODEL_TRIANGLES →
      f.type ≠ BVHModelType.BVH_MODEL_POINTCLOUD →
      f.fit ops idxs n = ops.empty := by
  intro BV ops f idxs n h1 h2
  cases h : f.type with
  | BVH_MODEL_UNKNOWN => simp [BVFitter.fit, h]
  | BVH_MODEL_TRIANGLES => exact absurd h h1
  | BVH_MODEL_POINTCLOUD => exact absurd h h2

/-- Witness for C7: the `UNKNOWN`-type fitter returns the empty BV on a
concrete input. -/
theorem C7_fit_unknown_type_witness :
    fitterU.fit opsList id 5 = opsList.empty :=
  C7_fit_unknown_type (List Vec3) opsList fitterU id 5 (by decide) (by decide)

/-- Helper: a point-preservation property survives a `foldl` whose step
preserves it. -/
lemma foldl_pres {BV : Type} (step : BV → Nat → BV) (P : BV → Prop)
    (Hpres : ∀ b j, P b → P (step b j)) :
    ∀ (l : List Nat) (b : BV), P b → P (l.foldl step b) := by
  intro l
  induction l with
  | nil => intro b hb; exact hb
  | cons j t ih => intro b hb; exact ih (step b j) (Hpres b j hb)

/-- Helper: a property introduced by the step at some list element holds of
the whole `foldl`. -/
lemma foldl_mem_intro {BV : Type} (step : BV → Nat → BV) (P : BV → Prop)
    (Hpres : ∀ b j, P b → P (step b j)) (i : Nat)
    (Hintro : ∀ b, P (step b i)) :
    ∀ (l : List Nat) (b : BV), i ∈ l → P (l.foldl step b) := by
  intro l
  induction l with
  | nil => intro b h; cases h
  | cons j t ih =>
      intro b h
      rcases List.mem_cons.mp h with h1 | h2
      · subst h1
        exact foldl_pres step P Hpres t (step b i) (Hintro b)
      · exact ih (step b j) h2

/-- Helper: the triangle fitting step preserves enclosure of any point. -/
lemma fitStepTri_pres {BV : Type} (ops : BVOps BV)
    (contains : BV → Vec3 → Prop)
    (Hmono : ∀ b p q, contains b q → contains (ops.addPoint b p) q)
    (f : BVFitter) (q : Vec3) (b : BV) (pidx : Nat)
    (hb : contains b q) : contains (fitStepTri ops f b pidx) q := by
  unfold fitStepTri
  cases h : f.prev_vertices with
  | none => exact Hmono _ _ _ (Hmono _ _ _ (Hmono _ _ _ hb))
  | some pv =>
      exact Hmono _ _ _ (Hmono _ _ _ (Hmono _ _ _ (Hmono _ _ _
        (Hmono _ _ _ (Hmono _ _ _ hb)))))

/-- Helper: the point fitting step preserves enclosure of any point. -/
lemma fitStepPoint_pres {BV : Type} (ops : BVOps BV)
    (contains : BV → Vec3 → Prop)
    (Hmono : ∀ b p q, contains b q → contains (ops.addPoint b p) q)
    (f : BVFitter) (q : Vec3) (b : BV) (pidx : Nat)
    (hb : contains b q) : contains (fitStepPoint ops f b pidx) q := by
  unfold fitStepPoint
  cases h : f.prev_vertices with
  | none => exact Hmono _ _ _ hb
  | some pv => exact Hmono _ _ _ (Hmono _ _ _ hb)

/-- Helper: on a deformable fitter, one triangle step encloses the current
and the previous position of each of the triangle's three vertices. -/
lemma fitStepTri_contains {BV : Type} (ops : BVOps BV)
    (contains : BV → Vec3 → Prop)
    (Hadd : ∀ b p, contains (ops.addPoint b p) p)
    (Hmono : ∀ b p q, contains b q → contains (ops.addPoint b p) q)
    (f : BVFitter) (pv : Nat → Vec3) (hpv : f.prev_vertices = some pv)
    (b : BV) (pidx : Nat) (k : Nat)
    (hk : k = (f.tri_indices pidx).v0 ∨ k = (f.tri_indices pidx).v1 ∨
          k = (f.tri_indices pidx).v2) :
    contains (fitStepTri ops f b pidx) (f.vertices k) ∧
    contains (fitStepTri ops f b pidx) (pv k) := by
  unfold fitStepTri
  rw [hpv]
  rcases hk with hk | hk | hk <;> subst hk
  · exact ⟨Hmono _ _ _ (Hmono _ _ _ (Hmono _ _ _ (Hmono _ _ _ (Hmono _ _ _
      (Hadd _ _))))), Hmono _ _ _ (Hmono _ _ _ (Hadd _ _))⟩
  · exact ⟨Hmono _ _ _ (Hmono _ _ _ (Hmono _ _ _ (Hmono _ _ _ (Hadd _ _)))),
      Hmono _ _ _ (Hadd _ _)⟩
  · exact ⟨Hmono _ _ _ (Hmono _ _ _ (Hmono _ _ _ (Hadd _ _))), Hadd _ _⟩

/-- Helper: on a deformable fitter, one point step encloses the current and
the previous position of the point. -/
lemma fitStepPoint_contains {BV : Type} (ops : BVOps BV)
    (contains : BV → Vec3 → Prop)
    (Hadd : ∀ b p, contains (ops.addPoint b p) p)
    (Hmono : ∀ b p q, contains b q → contains (ops.addPoint b p) q)
    (f : BVFitter) (pv : Nat → Vec3) (hpv : f.prev_vertices = some pv)
    (b : BV) (pidx : Nat) :
    contains (fitStepPoint ops f b pidx) (f.vertices pidx) ∧
    contains (fitStepPoint ops f b pidx) (pv pidx) := by
  unfold fitStepPoint
  rw [hpv]
  exact ⟨Hmono _ _ _ (Hadd _ _), Hadd _ _⟩

/-- Claim C6: for the generic fitter with `prev_vertices` set, on a
`TRIANGLES` (respectively `POINTCLOUD`) model, the fitted BV — built by
merging via `+=` both the current and the previous position of every vertex
referenced by the selected primitives — encloses the current and the previous
position of every such vertex, for any BV type whose merge adds the merged
point and keeps every previously enclosed point. -/
theorem C6_fit_deformable :
    ∀ (BV : Type) (ops : BVOps BV) (contains : BV → Vec3 → Prop),
      (∀ b p, contains (ops.addPoint b p) p) →
      (∀ b p q, contains b q → contains (ops.addPoint b p) q) →
      ∀ (f : BVFitter) (pv : Nat → Vec3) (idxs : Nat → Nat) (n i : Nat),
        f.prev_vertices = some pv → i < n →
        (f.type = BVHModelType.BVH_MODEL_TRIANGLES →
          ∀ k, (k = (f.tri_indices (idxs i)).v0 ∨
                k = (f.tri_indices (idxs i)).v1 ∨
                k = (f.tri_indices (idxs i)).v2) →
            contains (f.fit ops idxs n) (f.vertices k) ∧
            contains (f.fit ops idxs n) (pv k)) ∧
        (f.type = BVHModelType.BVH_MODEL_POINTCLOUD →
          contains (f.fit ops idxs n) (f.vertices (idxs i)) ∧
          contains (f.fit ops idxs n) (pv (idxs i))) := by
  intro BV ops contains Hadd Hmono f pv idxs n i hpv hin
  constructor
  · intro hty k hk
    have hfit : f.fit ops idxs n =
        (List.range n).foldl
          (fun bv j => fitStepTri ops f bv (idxs j)) ops.empty := by
      simp [BVFitter.fit, hty]
    rw [hfit]
    exact foldl_mem_intro (fun bv j => fitStepTri ops f bv (idxs j))
      (fun b => contains b (f.vertices k) ∧ contains b (pv k))
      (fun b j hb => ⟨fitStepTri_pres ops contains Hmono f _ b _ hb.1,
        fitStepTri_pres ops contains Hmono f _ b _ hb.2⟩)
      i (fun b => fitStepTri_contains ops contains Hadd Hmono f pv hpv b
        (idxs i) k hk)
      (List.range n) ops.empty (List.mem_range.mpr hin)
  · intro hty
    have hfit : f.fit ops idxs n =
        (List.range n).foldl
          (fun bv j => fitStepPoint ops f bv (idxs j)) ops.empty := by
      simp [BVFitter.fit, hty]
    rw [hfit]
    exact foldl_mem_intro (fun bv j => fitStepPoint ops f bv (idxs j))
      (fun b => contains b (f.vertices (idxs i)) ∧ contains b (pv (idxs i)))
      (fun b j hb => ⟨fitStepPoint_pres ops contains Hmono f _ b _ hb.1,
        fitStepPoint_pres ops contains Hmono f _ b _ hb.2⟩)
      i (fun b => fitStepPoint_contains ops contains Hadd Hmono f pv hpv b
        (idxs i))
      (List.range n) ops.empty (List.mem_range.mpr hin)

/-- Witness for C6: on a concrete deformable triangle mesh the fitted
list-BV contains both the current and the previous position of a referenced
vertex. -/
theorem C6_fit_deformable_witness :
    vW 0 ∈ fitterW.fit opsList id 1 ∧ pvW 0 ∈ fitterW.fit opsList id 1 :=
  (C6_fit_deformable (List Vec3) opsList (fun b p => p ∈ b)
    (fun b p => List.mem_cons_self p b)
    (fun b p q hq => List.mem_cons_of_mem p hq)
    fitterW pvW id 1 0 rfl (by decide)).1 rfl 0 (Or.inl rfl)

end fcl
